import Mathlib

/-!
Verification of the WOLS specimen-label library (wemush/specimen-labels-py)
against its natural-language specification.

The Python sources are shallowly embedded: JSON values (the results of
`json.loads`) become the inductive type `PyVal`, Python dicts become
association lists with unique keys, and each relevant function of the
library (`validate_specimen`, `validate_specimen_id`, `parse_specimen`,
`Specimen.to_dict` / `from_dict`, `parse_compact_url`, the generation
normalizer, and the migration engine) is translated definition by
definition from `src/wols`.  Stateful registry loops are modelled with
explicit fuel; exceptions become `Except` / `Option` results.
-/

namespace Wols

/-- A JSON-like Python value, the universe of values reachable from
`json.loads` plus `None`/`bool`/`int`/`str` literals used by the library.
Dicts are insertion-ordered association lists, as in CPython. -/
inductive PyVal where
  | vNull : PyVal
  | vBool : Bool → PyVal
  | vInt : Int → PyVal
  | vStr : String → PyVal
  | vList : List PyVal → PyVal
  | vDict : List (String × PyVal) → PyVal

/-- A Python dict with string keys, in insertion order. -/
abbrev Dict := List (String × PyVal)

/-- `d.get(k)` / `d[k]`: value of the first entry with key `k`. -/
def dictGet (d : Dict) (k : String) : Option PyVal :=
  (d.find? (fun e => e.1 == k)).map (·.2)

/-- `k in d`. -/
def dictContains (d : Dict) (k : String) : Bool :=
  d.any (fun e => e.1 == k)

/-- `d[k] = v`: replace the value of an existing key in place (CPython keeps
the original insertion position), otherwise append at the end. -/
def dictSet (d : Dict) (k : String) (v : PyVal) : Dict :=
  match d with
  | [] => [(k, v)]
  | e :: rest => if e.1 == k then (k, v) :: rest else e :: dictSet rest k v

/-- Remove every entry with key `k` (on well-formed dicts, the single one). -/
def dictErase (d : Dict) (k : String) : Dict :=
  d.filter (fun e => e.1 != k)

/-- `type(x).__name__` for the embedded values. -/
def pyTypeName : PyVal → String
  | .vNull => "NoneType"
  | .vBool _ => "bool"
  | .vInt _ => "int"
  | .vStr _ => "str"
  | .vList _ => "list"
  | .vDict _ => "dict"

/-- `isinstance(x, str)`. -/
def isPyStr : PyVal → Bool
  | .vStr _ => true
  | _ => false

/-- `isinstance(x, int)`.  In Python `bool` is a subclass of `int`. -/
def isPyInt : PyVal → Bool
  | .vInt _ => true
  | .vBool _ => true
  | _ => false

/-- `isinstance(x, dict)`. -/
def isPyDict : PyVal → Bool
  | .vDict _ => true
  | _ => false

/-- The integer value of a Python `int`-like object (`True == 1`, `False == 0`). -/
def pyIntVal : PyVal → Int
  | .vInt n => n
  | .vBool b => if b then 1 else 0
  | _ => 0

/-- The whitespace set stripped by `str.strip()` (ASCII portion; the
library strips identifiers, codes and version strings, which are ASCII). -/
def isPyWhitespace (c : Char) : Bool :=
  c == ' ' || c == '\t' || c == '\n' || c == '\r' || c == '\x0b' || c == '\x0c'

/-- `str.strip()` (whitespace characters at both ends removed). -/
def pyStrip (s : String) : String :=
  ⟨((s.data.dropWhile isPyWhitespace).reverse.dropWhile isPyWhitespace).reverse⟩

/-- `str.upper()`, modelled character-wise (the library only uppercases
ASCII identifiers and codes). -/
def pyUpper (s : String) : String := ⟨s.data.map Char.toUpper⟩

/-- `s.startswith(pre)`. -/
def pyStartsWith (s pre : String) : Bool := pre.data.isPrefixOf s.data

/-- `s[n:]` (drop the first `n` characters). -/
def pyDropChars (s : String) (n : Nat) : String := ⟨s.data.drop n⟩

/-- Split a character list at every occurrence of `c` (like `str.split(c)`
for a one-character separator). -/
def splitCh (c : Char) : List Char → List (List Char)
  | [] => [[]]
  | x :: xs =>
    match splitCh c xs with
    | [] => [[]]
    | g :: gs => if x == c then [] :: g :: gs else (x :: g) :: gs

/-- `str.split(sep)` for a one-character separator, as strings. -/
def pySplitChar (s : String) (c : Char) : List String :=
  (splitCh c s.data).map (fun g => ⟨g⟩)

end Wols

namespace Wols

/-! ### Enumerations and constants (`wols/constants.py`, `wols/models/enums.py`) -/

/-- `WOLS_VERSION` from `wols/constants.py` (line 12). -/
def WOLS_VERSION : String := "1.1.0"

/-- `WOLS_CONTEXT` from `wols/constants.py`. -/
def WOLS_CONTEXT : String := "https://wemush.com/wols/v1"

/-- `ID_PREFIX` from `wols/constants.py`. -/
def ID_PREFIX : String := "wemush"

/-- `SpecimenType` enum. -/
inductive SpecimenType where
  | CULTURE | SPAWN | SUBSTRATE | FRUITING | HARVEST
  deriving DecidableEq, Repr

/-- `SpecimenType.value`. -/
def SpecimenType.value : SpecimenType → String
  | .CULTURE => "CULTURE"
  | .SPAWN => "SPAWN"
  | .SUBSTRATE => "SUBSTRATE"
  | .FRUITING => "FRUITING"
  | .HARVEST => "HARVEST"

/-- `[t.value for t in SpecimenType]`, in declaration order. -/
def specimenTypeValues : List String :=
  ["CULTURE", "SPAWN", "SUBSTRATE", "FRUITING", "HARVEST"]

/-- The fallible enum call `SpecimenType(x)` on a string. -/
def SpecimenType.ofString? : String → Option SpecimenType
  | "CULTURE" => some .CULTURE
  | "SPAWN" => some .SPAWN
  | "SUBSTRATE" => some .SUBSTRATE
  | "FRUITING" => some .FRUITING
  | "HARVEST" => some .HARVEST
  | _ => none

/-- `GrowthStage` enum (7 stages, v1.2.0 lifecycle). -/
inductive GrowthStage where
  | INOCULATION | INCUBATION | COLONIZATION | PRIMORDIA
  | FRUITING | SENESCENCE | HARVEST
  deriving DecidableEq, Repr

/-- `GrowthStage.value`. -/
def GrowthStage.value : GrowthStage → String
  | .INOCULATION => "INOCULATION"
  | .INCUBATION => "INCUBATION"
  | .COLONIZATION => "COLONIZATION"
  | .PRIMORDIA => "PRIMORDIA"
  | .FRUITING => "FRUITING"
  | .SENESCENCE => "SENESCENCE"
  | .HARVEST => "HARVEST"

/-- `[s.value for s in GrowthStage]`, in declaration order. -/
def growthStageValues : List String :=
  ["INOCULATION", "INCUBATION", "COLONIZATION", "PRIMORDIA",
   "FRUITING", "SENESCENCE", "HARVEST"]

/-- The fallible enum call `GrowthStage(x)` on a string. -/
def GrowthStage.ofString? : String → Option GrowthStage
  | "INOCULATION" => some .INOCULATION
  | "INCUBATION" => some .INCUBATION
  | "COLONIZATION" => some .COLONIZATION
  | "PRIMORDIA" => some .PRIMORDIA
  | "FRUITING" => some .FRUITING
  | "SENESCENCE" => some .SENESCENCE
  | "HARVEST" => some .HARVEST
  | _ => none

/-- `STAGE_CODES` from `wols/constants.py`: 3-letter code to stage name. -/
def STAGE_CODES : List (String × String) :=
  [("INO", "INOCULATION"), ("COL", "COLONIZATION"),
   ("FRU", "FRUITING"), ("HAR", "HARVEST")]

/-- `STAGE_CODES.get(k)`. -/
def stageCodesGet (k : String) : Option String :=
  (STAGE_CODES.find? (fun e => e.1 == k)).map (·.2)

/-- `VALID_URL_SCHEMES` from `wols/constants.py`. -/
def VALID_URL_SCHEMES : List String := ["wemush", "web+wemush", "https"]

end Wols

namespace Wols

/-! ### Validation results (`wols/models/validation.py`) -/

/-- `ValidationError` dataclass: `path`, `code`, `message`. -/
structure ValidationError where
  path : String
  code : String
  message : String
  deriving DecidableEq, Repr

/-- `ValidationResult` dataclass: `valid`, `errors`, `warnings`. -/
structure ValidationResult where
  valid : Bool
  errors : List ValidationError
  warnings : List ValidationError
  deriving DecidableEq, Repr

/-! ### Identifier patterns (`wols/core/validate.py` lines 15-28)

CPython regex semantics for the anchored patterns used here: `re.match` of
`^body$` succeeds on `s` iff the body matches all of `s`, or all of `s`
minus a single trailing newline (`$` also matches just before a final
`"\n"`); none of the character classes involved can match `"\n"` itself,
so this disjunction is exact. -/

/-- Wrapper giving a `^body$` pattern CPython's trailing-newline semantics. -/
def pyFullMatch (body : String → Bool) (s : String) : Bool :=
  body s || ((s.data.getLast? == some '\n') && body ⟨s.data.dropLast⟩)

/-- `[a-z0-9]`. -/
def isLowerAlnumChar (c : Char) : Bool :=
  (('a' ≤ c) && (c ≤ 'z')) || (('0' ≤ c) && (c ≤ '9'))

/-- Body of `ID_PATTERN = ^wemush:[a-z0-9]{24}$`. -/
def idPatternBody (s : String) : Bool :=
  let pre := ID_PREFIX ++ ":"
  pyStartsWith s pre && ((pyDropChars s pre.length).length == 24
    && (pyDropChars s pre.length).data.all isLowerAlnumChar)

/-- `ID_PATTERN.match(s)` (as a Boolean). -/
def matchesIdPattern (s : String) : Bool := pyFullMatch idPatternBody s

/-- Body of `STRICT_PATTERN = ^wemush:[a-z0-9]+$`. -/
def strictPatternBody (s : String) : Bool :=
  let pre := ID_PREFIX ++ ":"
  pyStartsWith s pre && (!(pyDropChars s pre.length).data.isEmpty
    && (pyDropChars s pre.length).data.all isLowerAlnumChar)

/-- `STRICT_PATTERN.match(s)` (as a Boolean). -/
def matchesStrictPattern (s : String) : Bool := pyFullMatch strictPatternBody s

/-- `[0-9A-HJKMNP-TV-Z]` case-insensitively (Crockford base 32). -/
def isCrockfordChar (c : Char) : Bool :=
  let u := c.toUpper
  (('0' ≤ u) && (u ≤ '9')) || (('A' ≤ u) && (u ≤ 'H')) || (u == 'J')
    || (u == 'K') || (u == 'M') || (u == 'N') || (('P' ≤ u) && (u ≤ 'T'))
    || (('V' ≤ u) && (u ≤ 'Z'))

/-- Body of `ULID_PATTERN = ^[0-9A-HJKMNP-TV-Z]{26}$` (IGNORECASE). -/
def ulidPatternBody (s : String) : Bool :=
  s.length == 26 && s.data.all isCrockfordChar

/-- `ULID_PATTERN.match(s)`. -/
def matchesUlidPattern (s : String) : Bool := pyFullMatch ulidPatternBody s

/-- `[0-9a-f]` case-insensitively. -/
def isHexChar (c : Char) : Bool :=
  let l := c.toLower
  (('0' ≤ l) && (l ≤ '9')) || (('a' ≤ l) && (l ≤ 'f'))

/-- Body of the RFC-4122 v4 `UUID_PATTERN` (IGNORECASE).  The hex classes
exclude `-`, so splitting on `-` aligns exactly with the pattern groups. -/
def uuidPatternBody (s : String) : Bool :=
  match pySplitChar s '-' with
  | [a, b, c, d, e] =>
    a.length == 8 && a.data.all isHexChar
      && b.length == 4 && b.data.all isHexChar
      && c.length == 4 && c.data.all isHexChar && (c.data.head? == some '4')
      && d.length == 4 && d.data.all isHexChar
      && (match d.data.head? with
          | some h => h.toLower == '8' || h.toLower == '9'
              || h.toLower == 'a' || h.toLower == 'b'
          | none => false)
      && e.length == 12 && e.data.all isHexChar
  | _ => false

/-- `UUID_PATTERN.match(s)`. -/
def matchesUuidPattern (s : String) : Bool := pyFullMatch uuidPatternBody s

/-- `IdValidationMode` enum (v1.2.0). -/
inductive IdValidationMode where
  | STRICT | ULID | UUID | ANY
  deriving DecidableEq, Repr

/-- `validate_specimen_id(id, mode, custom_validator)` from
`wols/core/validate.py` lines 51-97. -/
def validateSpecimenId (ident : String) (mode : IdValidationMode)
    (customValidator : Option (String → Bool)) : Bool :=
  match customValidator with
  | some f => f ident
  | none =>
    let pre := ID_PREFIX ++ ":"
    if !(pyStartsWith ident pre) then false
    else
      let suffix := pyDropChars ident pre.length
      if suffix.data.isEmpty then false
      else
        match mode with
        | .STRICT => matchesStrictPattern ident
        | .ULID => matchesUlidPattern suffix
        | .UUID => matchesUuidPattern suffix
        | .ANY => true

end Wols

namespace Wols

/-! ### The validator (`wols/core/validate.py` lines 100-381)

`validate_specimen` accepts a `Specimen` or a raw mapping; a `Specimen` is
first projected through `to_dict`, so the validator proper operates on a
mapping and is embedded over `Dict`.  Each block of checks becomes one
definition returning the errors it appends, and the final result
concatenates them in the source's program order. -/

/-- The known-field allow-list (v1.2.0, includes `_meta`). -/
def knownFields : List String :=
  ["@context", "@type", "id", "version", "type", "species", "strain",
   "stage", "created", "batch", "organization", "creator", "custom",
   "signature", "_meta"]

/-- The unknown-field loop: one `UNKNOWN_FIELD` entry per key outside the
allow-list, in dict iteration order. -/
def unknownFieldErrors (d : Dict) : List ValidationError :=
  d.filterMap (fun e =>
    if knownFields.contains e.1 then none
    else some ⟨e.1, "UNKNOWN_FIELD", "Field '" ++ e.1 ++ "' is not in WOLS schema"⟩)

/-- Required-field `id` checks (presence, string, `ID_PATTERN`). -/
def idCheckErrors (d : Dict) : List ValidationError :=
  match dictGet d "id" with
  | none => [⟨"id", "REQUIRED_FIELD", "Field 'id' is required"⟩]
  | some (.vStr s) =>
    if matchesIdPattern s then []
    else [⟨"id", "INVALID_ID",
      "Invalid ID format. Expected '" ++ ID_PREFIX ++ ":\x7bcuid\x7d', got '" ++ s ++ "'"⟩]
  | some v => [⟨"id", "INVALID_TYPE", "Expected string, got " ++ pyTypeName v⟩]

/-- Required-field `type` checks (presence, string, enum membership). -/
def typeCheckErrors (d : Dict) : List ValidationError :=
  match dictGet d "type" with
  | none => [⟨"type", "REQUIRED_FIELD", "Field 'type' is required"⟩]
  | some (.vStr s) =>
    if specimenTypeValues.contains s then []
    else [⟨"type", "INVALID_VALUE",
      "Invalid type '" ++ s ++ "'. Valid types: "
        ++ String.intercalate ", " specimenTypeValues⟩]
  | some v => [⟨"type", "INVALID_TYPE", "Expected string, got " ++ pyTypeName v⟩]

/-- Required-field `species` checks (presence, string, non-empty after trim). -/
def speciesCheckErrors (d : Dict) : List ValidationError :=
  match dictGet d "species" with
  | none => [⟨"species", "REQUIRED_FIELD", "Field 'species' is required"⟩]
  | some (.vStr s) =>
    if (pyStrip s).isEmpty then
      [⟨"species", "INVALID_VALUE", "Species cannot be empty"⟩]
    else []
  | some v => [⟨"species", "INVALID_TYPE", "Expected string, got " ++ pyTypeName v⟩]

/-- Optional-field `version` error branch (present but not a string). -/
def versionCheckErrors (d : Dict) : List ValidationError :=
  match dictGet d "version" with
  | none => []
  | some (.vStr _) => []
  | some v => [⟨"version", "INVALID_TYPE", "Expected string, got " ++ pyTypeName v⟩]

/-- Optional-field `version` warning branch (string different from the
current library version). -/
def versionCheckWarnings (d : Dict) : List ValidationError :=
  match dictGet d "version" with
  | some (.vStr s) =>
    if s == WOLS_VERSION then []
    else [⟨"version", "INVALID_VERSION",
      "Expected version '" ++ WOLS_VERSION ++ "', got '" ++ s ++ "'"⟩]
  | _ => []

/-- Optional-field `stage` checks (string, enum membership). -/
def stageCheckErrors (d : Dict) : List ValidationError :=
  match dictGet d "stage" with
  | none => []
  | some (.vStr s) =>
    if growthStageValues.contains s then []
    else [⟨"stage", "INVALID_VALUE",
      "Invalid stage '" ++ s ++ "'. Valid stages: "
        ++ String.intercalate ", " growthStageValues⟩]
  | some v => [⟨"stage", "INVALID_TYPE", "Expected string, got " ++ pyTypeName v⟩]

/-- One iteration of the strain generation-counter loop
(`for gen_field in ["generation", "clonalGeneration"]`). -/
def strainGenFieldErrors (sd : Dict) (genField : String) : List ValidationError :=
  match dictGet sd genField with
  | none => []
  | some gv =>
    if !(isPyInt gv) then
      [⟨"strain." ++ genField, "INVALID_TYPE",
        "Expected integer, got " ++ pyTypeName gv⟩]
    else if pyIntVal gv < 0 then
      [⟨"strain." ++ genField, "INVALID_VALUE", genField ++ " must be non-negative"⟩]
    else []

/-- Optional-field `strain` checks (object with validated `name` and
generation counters, or bare string, or a type error). -/
def strainCheckErrors (d : Dict) : List ValidationError :=
  match dictGet d "strain" with
  | none => []
  | some (.vDict sd) =>
    (match dictGet sd "name" with
     | none => [⟨"strain.name", "REQUIRED_FIELD", "Strain name is required"⟩]
     | some (.vStr s) =>
       if (pyStrip s).isEmpty then
         [⟨"strain.name", "INVALID_VALUE", "Strain name must be a non-empty string"⟩]
       else []
     | some _ =>
       [⟨"strain.name", "INVALID_VALUE", "Strain name must be a non-empty string"⟩])
      ++ strainGenFieldErrors sd "generation"
      ++ strainGenFieldErrors sd "clonalGeneration"
  | some (.vStr _) => []
  | some v =>
    [⟨"strain", "INVALID_TYPE", "Expected string or object, got " ++ pyTypeName v⟩]

/-- Optional-field `created` check (non-null values must be strings). -/
def createdCheckErrors (d : Dict) : List ValidationError :=
  match dictGet d "created" with
  | none => []
  | some .vNull => []
  | some (.vStr _) => []
  | some v =>
    [⟨"created", "INVALID_TYPE", "Expected ISO 8601 string, got " ++ pyTypeName v⟩]

/-- One iteration of the optional-string-field loop. -/
def optStringFieldErrors (d : Dict) (f : String) : List ValidationError :=
  match dictGet d f with
  | none => []
  | some .vNull => []
  | some (.vStr _) => []
  | some v => [⟨f, "INVALID_TYPE", "Expected string, got " ++ pyTypeName v⟩]

/-- Optional-field `custom` check (non-null values must be mappings). -/
def customCheckErrors (d : Dict) : List ValidationError :=
  match dictGet d "custom" with
  | none => []
  | some .vNull => []
  | some (.vDict _) => []
  | some v => [⟨"custom", "INVALID_TYPE", "Expected object, got " ++ pyTypeName v⟩]

/-- The `errors` list accumulated by `validate_specimen`, in the source's
program order (the unknown-field loop appends first when `strict`). -/
def validationErrors (d : Dict) (strict : Bool) : List ValidationError :=
  (if strict then unknownFieldErrors d else [])
    ++ idCheckErrors d ++ typeCheckErrors d ++ speciesCheckErrors d
    ++ versionCheckErrors d ++ stageCheckErrors d ++ strainCheckErrors d
    ++ createdCheckErrors d
    ++ optStringFieldErrors d "batch" ++ optStringFieldErrors d "organization"
    ++ optStringFieldErrors d "creator" ++ optStringFieldErrors d "signature"
    ++ customCheckErrors d

/-- The `warnings` list accumulated by `validate_specimen`. -/
def validationWarnings (d : Dict) (strict : Bool) : List ValidationError :=
  (if strict then [] else unknownFieldErrors d) ++ versionCheckWarnings d

/-- `validate_specimen(data, strict=...)` on a raw mapping
(`wols/core/validate.py` lines 100-381); a `Specimen` argument is first
projected via `to_dict` and then validated by this same function. -/
def validateSpecimen (d : Dict) (strict : Bool) : ValidationResult :=
  ⟨(validationErrors d strict).isEmpty, validationErrors d strict,
   validationWarnings d strict⟩

end Wols

namespace Wols

/-! ### Record model (`wols/models/specimen.py`)

Python dataclasses do not enforce their annotations at runtime, and
`Specimen.from_dict` copies `id`/`version`/`species` and the optional
string fields through without type checks, so those fields are embedded as
raw `PyVal`s; `type`, `stage` and `strain` go through explicit fallible
conversions in `from_dict` and are embedded with their converted types.
`datetime` values are carried as their canonical ISO-8601 text (the
`isoformat` output): `isoformat` is the identity on this representation
and `fromisoformat` checks the `YYYY-MM-DD` prefix and keeps the text
(the claims compare timestamps only modulo formatting precision).
An absent optional argument and an explicit `None` are both `vNull`. -/

/-- `x is None`. -/
def PyVal.isNull : PyVal → Bool
  | .vNull => true
  | _ => false

/-- Python exception kinds that reach the library's `except` clauses. -/
inductive PyErr where
  | keyError | valueError | attributeError | typeError
  deriving DecidableEq, Repr

/-- A `datetime` value, represented by its canonical ISO-8601 text. -/
structure PyDatetime where
  iso : String
  deriving DecidableEq, Repr

/-- `str.replace("Z", "+00:00")`. -/
def pyReplaceZ (s : String) : String :=
  ⟨s.data.foldr
    (fun c acc =>
      if c == 'Z' then '+' :: '0' :: '0' :: ':' :: '0' :: '0' :: acc
      else c :: acc) []⟩

/-- The `YYYY-MM-DD` shape `datetime.fromisoformat` requires of the date
part (the time part is modelled loosely: CPython accepts many layouts). -/
def isoDatePrefixOk : List Char → Bool
  | y1 :: y2 :: y3 :: y4 :: '-' :: m1 :: m2 :: '-' :: d1 :: d2 :: _ =>
    y1.isDigit && y2.isDigit && y3.isDigit && y4.isDigit
      && m1.isDigit && m2.isDigit && d1.isDigit && d2.isDigit
  | _ => false

/-- `datetime.fromisoformat(s)`: `ValueError` when the text is not
ISO-shaped, otherwise the value carrying this text. -/
def datetimeFromIsoformat (s : String) : Except PyErr PyDatetime :=
  if isoDatePrefixOk s.data then .ok ⟨s⟩ else .error .valueError

/-- `Strain` dataclass (all fields pass through `from_dict` unchecked). -/
structure Strain where
  name : PyVal
  generation : PyVal
  clonal_generation : PyVal
  lineage : PyVal
  source : PyVal

/-- A dict segment contributed by one `if ...: result[k] = v` statement. -/
def optEntry (k : String) (v : Option PyVal) : Dict :=
  match v with
  | some x => [(k, x)]
  | none => []

/-- `None` filter used by the `is not None` guards of `to_dict`. -/
def nullOpt (v : PyVal) : Option PyVal :=
  if v.isNull then none else some v

/-- `Strain.to_dict`. -/
def Strain.to_dict (st : Strain) : Dict :=
  [("name", st.name)]
    ++ optEntry "generation" (nullOpt st.generation)
    ++ optEntry "clonalGeneration" (nullOpt st.clonal_generation)
    ++ optEntry "lineage" (nullOpt st.lineage)
    ++ optEntry "source" (nullOpt st.source)

/-- `Strain.from_dict` (raises `KeyError` when `name` is absent). -/
def Strain.from_dict (data : Dict) : Except PyErr Strain :=
  match dictGet data "name" with
  | none => .error .keyError
  | some nm =>
    .ok ⟨nm, (dictGet data "generation").getD .vNull,
      (dictGet data "clonalGeneration").getD .vNull,
      (dictGet data "lineage").getD .vNull,
      (dictGet data "source").getD .vNull⟩

/-- `Specimen` dataclass. -/
structure Specimen where
  id : PyVal
  version : PyVal
  type : SpecimenType
  species : PyVal
  strain : Option Strain
  stage : Option GrowthStage
  created : Option PyDatetime
  batch : PyVal
  organization : PyVal
  creator : PyVal
  custom : PyVal
  signature : PyVal

/-- `Specimen.to_dict` (the `not isinstance(self.strain, dict)` guard is
vacuous here: the embedded `strain` is `Option Strain`). -/
def Specimen.to_dict (sp : Specimen) : Dict :=
  [("@context", .vStr WOLS_CONTEXT), ("@type", .vStr "Specimen"),
   ("id", sp.id), ("version", sp.version),
   ("type", .vStr sp.type.value), ("species", sp.species)]
    ++ optEntry "strain" (sp.strain.map (fun st => .vDict st.to_dict))
    ++ optEntry "stage" (sp.stage.map (fun stg => .vStr stg.value))
    ++ optEntry "created" (sp.created.map (fun dt => .vStr dt.iso))
    ++ optEntry "batch" (nullOpt sp.batch)
    ++ optEntry "organization" (nullOpt sp.organization)
    ++ optEntry "creator" (nullOpt sp.creator)
    ++ optEntry "custom" (nullOpt sp.custom)
    ++ optEntry "signature" (nullOpt sp.signature)

/-- `Specimen.from_dict`.  The `isinstance(created_value, datetime)` branch
is unreachable for JSON input and is not modelled.  Subscripting a
non-dict non-string strain raises `TypeError`; `GrowthStage`/`SpecimenType`
calls on invalid values raise `ValueError`; `.replace` on a non-string
`created` raises `AttributeError`. -/
def Specimen.from_dict (data : Dict) : Except PyErr Specimen :=
  (match dictGet data "strain" with
   | none => .ok none
   | some .vNull => .ok none
   | some (.vStr s) => .ok (some ⟨.vStr s, .vNull, .vNull, .vNull, .vNull⟩)
   | some (.vDict sd) => (Strain.from_dict sd).map some
   | some _ => .error .typeError) >>= fun strain =>
  (match dictGet data "stage" with
   | none => .ok none
   | some .vNull => .ok none
   | some (.vStr s) =>
     match GrowthStage.ofString? s with
     | some g => .ok (some g)
     | none => .error .valueError
   | some _ => .error .valueError) >>= fun stage =>
  (match dictGet data "created" with
   | none => .ok none
   | some .vNull => .ok none
   | some (.vStr s) => (datetimeFromIsoformat (pyReplaceZ s)).map some
   | some _ => .error .attributeError) >>= fun created =>
  (match dictGet data "id" with
   | some v => .ok v
   | none => .error .keyError) >>= fun idv =>
  (match dictGet data "type" with
   | some (.vStr s) =>
     match SpecimenType.ofString? s with
     | some t => .ok t
     | none => .error .valueError
   | some _ => .error .valueError
   | none => .error .keyError) >>= fun ty =>
  (match dictGet data "species" with
   | some v => .ok v
   | none => .error .keyError) >>= fun species =>
  .ok ⟨idv, (dictGet data "version").getD (.vStr WOLS_VERSION), ty, species,
    strain, stage, created,
    (dictGet data "batch").getD .vNull,
    (dictGet data "organization").getD .vNull,
    (dictGet data "creator").getD .vNull,
    (dictGet data "custom").getD .vNull,
    (dictGet data "signature").getD .vNull⟩

/-! ### JSON codec (`wols/core/serialize.py`, `wols/core/parse.py`)

`to_json` is `json.dumps(specimen.to_dict())` and `parse_specimen` starts
with `json.loads`; `loads` is a left inverse of `dumps` on this value
universe, so the text layer is modelled as the identity and both
functions operate on the parsed JSON value directly (the `INVALID_JSON`
branch belongs to the dropped text layer). -/

/-- The JSON document produced by `to_json(specimen)`, as a parsed value. -/
def to_json (sp : Specimen) : PyVal := .vDict sp.to_dict

/-- Failure code of `WolsParseError` as raised by `parse_specimen`; an
`uncaught` exception propagates out of the `except (KeyError, ValueError)`
clause. -/
inductive ParseFail where
  | invalidType | requiredField | parseError
  | uncaught (e : PyErr)
  deriving DecidableEq, Repr

/-- `parse_specimen` (`wols/core/parse.py` lines 15-64), from the parsed
JSON value on. -/
def parseSpecimen (v : PyVal) : Except ParseFail Specimen :=
  match v with
  | .vDict data =>
    if !(dictContains data "id") || !(dictContains data "type")
        || !(dictContains data "species") then
      .error .requiredField
    else
      match Specimen.from_dict data with
      | .ok sp => .ok sp
      | .error .keyError => .error .parseError
      | .error .valueError => .error .parseError
      | .error e => .error (.uncaught e)
  | _ => .error .invalidType

end Wols

namespace Wols

/-! ### Generation normalizer (`wols/generation.py`)

`GENERATION_PARSE_PATTERN = ^(P|P1|F(\d+)|G(\d+)|(\d+))$` is applied to the
trimmed, uppercased input, which never ends in a newline, so the pattern is
a plain total match; `\d` is modelled as the ASCII digits the library's
grammar uses. -/

/-- `GenerationFormat` enum. -/
inductive GenerationFormat where
  | PRESERVE | FILIAL | NUMERIC
  deriving DecidableEq, Repr

/-- Numeric value of a non-empty all-digit character list (`int(...)` on a
digit group), `none` otherwise. -/
def digitsVal (l : List Char) : Option Nat :=
  if l.isEmpty || !(l.all Char.isDigit) then none
  else some (l.foldl (fun acc c => acc * 10 + (c.toNat - 48)) 0)

/-- The numeric capture of `GENERATION_PARSE_PATTERN` on the trimmed
uppercased text, for the `F<n>`, `G<n>` and bare-number alternatives (the
`P`/`P1` alternatives are consumed by the early return in
`normalize_generation` and by the explicit disjunction in
`is_valid_generation`). -/
def genMatchNum : List Char → Option Nat
  | 'F' :: rest => digitsVal rest
  | 'G' :: rest => digitsVal rest
  | l => digitsVal l

/-- `normalize_generation(generation, generation_format)`
(`wols/generation.py` lines 29-79). -/
def normalizeGeneration (generation : String) (fmt : GenerationFormat) : String :=
  let trimmed := pyUpper (pyStrip generation)
  if trimmed == "P" || trimmed == "P1" then
    match fmt with
    | .NUMERIC => "0"
    | _ => "P"
  else
    match genMatchNum trimmed.data with
    | none => generation
    | some n =>
      match fmt with
      | .PRESERVE => generation
      | .FILIAL => "F" ++ toString n
      | .NUMERIC => toString n

/-- `is_valid_generation(generation)` (`wols/generation.py` lines 82-103). -/
def isValidGeneration (generation : String) : Bool :=
  let trimmed := pyUpper (pyStrip generation)
  trimmed == "P" || trimmed == "P1" || (genMatchNum trimmed.data).isSome

end Wols

namespace Wols

/-! ### Compact-URL decoding (`wols/core/parse.py` lines 67-165)

`urllib.parse.urlparse` and `parse_qs` are standard-library collaborators;
they are modelled to CPython's documented behavior on the inputs this
codec accepts: scheme recognition and lowercasing, netloc extraction after
`//`, fragment and query splitting, `&`-separated `name=value` pairs with
blank values dropped and `unquote_plus` applied (percent decoding is exact
for ASCII escapes; the species and stage codes are drawn from ASCII
tables). -/

/-- The characters CPython allows inside a URL scheme. -/
def isSchemeChar (c : Char) : Bool :=
  c.isAlpha || c.isDigit || c == '+' || c == '-' || c == '.'

/-- Result of `urlparse` (the components this codec reads). -/
structure UrlParts where
  scheme : String
  netloc : String
  path : String
  query : String
  fragment : String
  deriving DecidableEq, Repr

/-- `urllib.parse.urlparse`, restricted to scheme/netloc/path/query/fragment. -/
def pyUrlparse (url : String) : UrlParts :=
  let l := url.data
  let pre := l.takeWhile (fun c => c != ':')
  let hasScheme := pre.length < l.length && !pre.isEmpty
    && (match pre.head? with
        | some c => c.isAlpha
        | none => false)
    && pre.all isSchemeChar
  let scheme : List Char := if hasScheme then pre.map Char.toLower else []
  let rest := if hasScheme then l.drop (pre.length + 1) else l
  let hasNetloc := rest.take 2 == ['/', '/']
  let netloc :=
    if hasNetloc then
      (rest.drop 2).takeWhile (fun c => c != '/' && c != '?' && c != '#')
    else []
  let rest2 := if hasNetloc then (rest.drop 2).drop netloc.length else rest
  let beforeFrag := rest2.takeWhile (fun c => c != '#')
  let fragment := rest2.drop (beforeFrag.length + 1)
  let path := beforeFrag.takeWhile (fun c => c != '?')
  let query := beforeFrag.drop (path.length + 1)
  ⟨⟨scheme⟩, ⟨netloc⟩, ⟨path⟩, ⟨query⟩, ⟨fragment⟩⟩

/-- `[0-9a-fA-F]` for percent-escape digits. -/
def isHexDigitChar (c : Char) : Bool :=
  c.isDigit || ('a' ≤ c && c ≤ 'f') || ('A' ≤ c && c ≤ 'F')

/-- Numeric value of a percent-escape hex digit. -/
def hexDigitToNat (c : Char) : Nat :=
  if c.isDigit then c.toNat - 48
  else if 'a' ≤ c && c ≤ 'f' then c.toNat - 87
  else c.toNat - 55

/-- `urllib.parse.unquote_plus`: `+` to space, `%XX` decoded. -/
def unquotePlusChars : List Char → List Char
  | [] => []
  | '+' :: rest => ' ' :: unquotePlusChars rest
  | '%' :: a :: b :: rest =>
    if isHexDigitChar a && isHexDigitChar b then
      Char.ofNat (16 * hexDigitToNat a + hexDigitToNat b) :: unquotePlusChars rest
    else '%' :: unquotePlusChars (a :: b :: rest)
  | c :: rest => c :: unquotePlusChars rest

/-- `urllib.parse.parse_qsl(query)` with the default
`keep_blank_values=False`: `&`-separated pairs, pairs without `=` or with
an empty value skipped, names and values unquoted. -/
def parseQsl (query : String) : List (String × String) :=
  (splitCh '&' query.data).filterMap (fun part =>
    let name := part.takeWhile (fun c => c != '=')
    if name.length == part.length then none
    else
      let value := part.drop (name.length + 1)
      if value.isEmpty then none
      else some (⟨unquotePlusChars name⟩, ⟨unquotePlusChars value⟩))

/-- The flattening `{k: v[0] for k, v in parse_qs(query).items()}`: keys in
first-appearance order, first value winning on duplicates. -/
def flattenFirstWins (l : List (String × String)) : List (String × String) :=
  l.foldl (fun acc kv => if acc.any (fun e => e.1 == kv.1) then acc else acc ++ [kv]) []

/-- Lookup in a string-pair mapping (`dict.get`). -/
def strLookup (l : List (String × String)) (k : String) : Option String :=
  (l.find? (fun e => e.1 == k)).map (·.2)

/-- `SpecimenRef` dataclass. -/
structure SpecimenRef where
  id : String
  species_code : Option String
  stage : Option GrowthStage
  params : List (String × String)
  deriving DecidableEq, Repr

/-- Failure code of `WolsParseError` as raised by `parse_compact_url`
(the `INVALID_URL` branch guards a `urlparse` call that cannot raise on a
string argument and is not reachable). -/
inductive UrlFail where
  | invalidScheme | invalidPath
  deriving DecidableEq, Repr

/-- `parse_compact_url(url)` (`wols/core/parse.py` lines 67-165). -/
def parseCompactUrl (url : String) : Except UrlFail SpecimenRef :=
  let parsed := pyUrlparse url
  if !(VALID_URL_SCHEMES.contains parsed.scheme) then .error .invalidScheme
  else
    let path := if parsed.scheme == "https" then parsed.path
      else parsed.netloc ++ parsed.path
    let pathParts := ((splitCh '/' path.data).map (fun g => (⟨g⟩ : String))).filter
      (fun p => !p.isEmpty)
    match pathParts.findIdx? (fun p => p == "v1") with
    | none => .error .invalidPath
    | some v1Index =>
      if pathParts.length ≤ v1Index + 1 then .error .invalidPath
      else
        let specimenId := pathParts.getD (v1Index + 1) ""
        let queryParams :=
          if parsed.query.isEmpty then []
          else flattenFirstWins (parseQsl parsed.query)
        let speciesCode := strLookup queryParams "s"
        let stage : Option GrowthStage :=
          match strLookup queryParams "st" with
          | some stageCode =>
            if !stageCode.isEmpty then
              match stageCodesGet (pyUpper stageCode) with
              | some stageValue => GrowthStage.ofString? stageValue
              | none => none
            else none
          | none => none
        .ok ⟨specimenId, speciesCode, stage, queryParams⟩

end Wols

namespace Wols

/-! ### Migration engine (`wols/migration.py`)

The module-level `_MIGRATION_REGISTRY` dict is passed explicitly as an
insertion-ordered association list from `(from_version, to_version)` keys
to handlers.  The two registry walks are `while` loops over mutable
state; they are embedded with explicit fuel: `none` means the loop has
not finished within the given fuel (so non-termination is `∀ n, ... = none`),
and a finished run yields the returned value or the raised exception. -/

/-- `int(x)` for a base-10 string: optional surrounding whitespace, an
optional sign, then digits with single underscores allowed between them. -/
def pyIntParse (s : String) : Option Int :=
  match (pyStrip s).data with
  | '+' :: rest => if pyDigitGroupOk rest then some (pyDigitsVal rest) else none
  | '-' :: rest => if pyDigitGroupOk rest then some (-(pyDigitsVal rest)) else none
  | l => if pyDigitGroupOk l then some (pyDigitsVal l) else none
where
  pyDigitGroupTail : List Char → Bool
    | [] => true
    | '_' :: d :: rest => d.isDigit && pyDigitGroupTail rest
    | c :: rest => c.isDigit && pyDigitGroupTail rest
  pyDigitGroupOk : List Char → Bool
    | [] => false
    | c :: rest => c.isDigit && pyDigitGroupTail rest
  pyDigitsVal (l : List Char) : Int :=
    ((l.filter (fun c => c != '_')).foldl (fun a c => a * 10 + (c.toNat - 48)) 0 : Nat)

/-- `tuple(int(x) for x in v.split("."))`; `none` models the `ValueError`
raised by `int` on a malformed segment. -/
def parseVersion (v : String) : Option (List Int) :=
  (pySplitChar v '.').mapM pyIntParse

/-- Python's lexicographic comparison of integer tuples (`<`). -/
def listIntLt : List Int → List Int → Bool
  | [], [] => false
  | [], _ :: _ => true
  | _ :: _, [] => false
  | x :: xs, y :: ys => if x < y then true else if y < x then false else listIntLt xs ys

/-- `compare_versions(a, b)` (`wols/migration.py` lines 23-51); `none`
models the `ValueError` from a malformed version string. -/
def compareVersions (a b : String) : Option Int :=
  match parseVersion a, parseVersion b with
  | some va, some vb =>
    some (if listIntLt va vb then -1 else if listIntLt vb va then 1 else 0)
  | _, _ => none

/-- A migration handler (`Callable[[dict], dict]`). -/
abbrev MigrationHandler := Dict → Dict

/-- The `_MIGRATION_REGISTRY` dict, in insertion order. -/
abbrev MigrationRegistry := List ((String × String) × MigrationHandler)

/-- `register_migration`: upsert; an existing key keeps its position. -/
def registerMigration (reg : MigrationRegistry) (fromVersion toVersion : String)
    (handler : MigrationHandler) : MigrationRegistry :=
  match reg with
  | [] => [((fromVersion, toVersion), handler)]
  | e :: rest =>
    if e.1 == (fromVersion, toVersion) then ((fromVersion, toVersion), handler) :: rest
    else e :: registerMigration rest fromVersion toVersion handler

/-- Python `<` on strings: lexicographic by code point. -/
def charListLt : List Char → List Char → Bool
  | [], [] => false
  | [], _ :: _ => true
  | _ :: _, [] => false
  | a :: xs, b :: ys => if a < b then true else if b < a then false else charListLt xs ys

/-- Python `<` on strings. -/
def strLtB (a b : String) : Bool := charListLt a.data b.data

/-- Python `<` on `(str, str)` key tuples. -/
def keyLtB (a b : String × String) : Bool :=
  strLtB a.1 b.1 || (a.1 == b.1 && strLtB a.2 b.2)

/-- Insert into a key-sorted list (helper of `sortByKey`). -/
def insertByKey (x : (String × String) × MigrationHandler) :
    MigrationRegistry → MigrationRegistry
  | [] => [x]
  | y :: ys => if keyLtB y.1 x.1 then y :: insertByKey x ys else x :: y :: ys

/-- `sorted(_MIGRATION_REGISTRY.items())`: ascending by key; the dict's
keys are unique, so the comparison never reaches the handlers. -/
def sortByKey : MigrationRegistry → MigrationRegistry
  | [] => []
  | x :: xs => insertByKey x (sortByKey xs)

/-- The `while` walk of `can_migrate` (`wols/migration.py` lines 145-157):
the `for` over the registry takes the first edge (insertion order) whose
source is the current pointer. -/
def canMigrateLoop (fuel : Nat) (reg : MigrationRegistry) (current : String) :
    Option (Except PyErr Bool) :=
  match fuel with
  | 0 => none
  | fuel + 1 =>
    match compareVersions current WOLS_VERSION with
    | none => some (.error .valueError)
    | some c =>
      if c ≥ 0 then some (.ok true)
      else
        match reg.find? (fun e => e.1.1 == current) with
        | some e => canMigrateLoop fuel reg e.1.2
        | none => some (.ok false)

/-- `can_migrate(specimen)` on a mapping: the declared version (default
`"1.0.0"`) seeds the walk; a non-string version reaches
`compare_versions`, whose `.split` raises `AttributeError`. -/
def canMigrateFuel (fuel : Nat) (reg : MigrationRegistry) (specimen : Dict) :
    Option (Except PyErr Bool) :=
  match dictGet specimen "version" with
  | none => canMigrateLoop fuel reg "1.0.0"
  | some (.vStr v) => canMigrateLoop fuel reg v
  | some _ => some (.error .attributeError)

/-- What `migrate` can raise: the structured no-path `ValueError`, or a
propagated exception from version parsing. -/
inductive MigrateError where
  | noPath
  | exc (e : PyErr)
  deriving DecidableEq, Repr

/-- The `while` walk of `migrate` (`wols/migration.py` lines 183-196): the
`for` over `sorted(...items())` takes the sorted-first matching edge,
applies its handler to the working mapping and advances the pointer to
the edge's target. -/
def migrateLoop (fuel : Nat) (reg : MigrationRegistry) (current : String)
    (data : Dict) : Option (Except MigrateError Dict) :=
  match fuel with
  | 0 => none
  | fuel + 1 =>
    match compareVersions current WOLS_VERSION with
    | none => some (.error (.exc .valueError))
    | some c =>
      if c ≥ 0 then some (.ok data)
      else
        match (sortByKey reg).find? (fun e => e.1.1 == current) with
        | some e => migrateLoop fuel reg e.1.2 (e.2 data)
        | none => some (.error .noPath)

/-- `migrate(specimen)` on a mapping (`wols/migration.py` lines 160-196). -/
def migrateFuel (fuel : Nat) (reg : MigrationRegistry) (specimen : Dict) :
    Option (Except MigrateError Dict) :=
  match dictGet specimen "version" with
  | none => migrateLoop fuel reg "1.0.0" specimen
  | some (.vStr v) => migrateLoop fuel reg v specimen
  | some _ => some (.error (.exc .attributeError))

/-- `can_migrate(specimen)` evaluates to `r`: the fuelled walk stabilizes
at `r` for some fuel. -/
def CanMigrateResult (reg : MigrationRegistry) (specimen : Dict)
    (r : Except PyErr Bool) : Prop :=
  ∃ n, canMigrateFuel n reg specimen = some r

/-- `migrate(specimen)` evaluates to `r`. -/
def MigrateResult (reg : MigrationRegistry) (specimen : Dict)
    (r : Except MigrateError Dict) : Prop :=
  ∃ n, migrateFuel n reg specimen = some r

end Wols

namespace Wols

/-! ### Shared lemmas about the dict model -/

theorem dictGet_nil (k : String) : dictGet [] k = none := rfl

theorem dictGet_cons_ne (k q : String) (v : PyVal) (d : Dict)
    (h : (k == q) = false) : dictGet ((k, v) :: d) q = dictGet d q := by
  simp [dictGet, List.find?, h]

theorem dictGet_cons_self (q : String) (v : PyVal) (d : Dict) :
    dictGet ((q, v) :: d) q = some v := by
  simp [dictGet, List.find?]

theorem dictGet_optEntry_ne (k q : String) (v : Option PyVal) (rest : Dict)
    (h : (k == q) = false) : dictGet (optEntry k v ++ rest) q = dictGet rest q := by
  cases v with
  | none => rfl
  | some x => simpa [optEntry] using dictGet_cons_ne k q x rest h

theorem dictGet_optEntry_self_some (k : String) (x : PyVal) (rest : Dict) :
    dictGet (optEntry k (some x) ++ rest) k = some x := by
  simpa [optEntry] using dictGet_cons_self k x rest

theorem dictGet_optEntry_self_none (k : String) (rest : Dict) :
    dictGet (optEntry k none ++ rest) k = dictGet rest k := rfl

theorem PyVal.isNull_iff (v : PyVal) : v.isNull = true ↔ v = .vNull := by
  cases v <;> simp [PyVal.isNull]

theorem getD_optEntry_nullOpt (k : String) (v : PyVal) (rest : Dict)
    (hrest : dictGet rest k = none) :
    (dictGet (optEntry k (nullOpt v) ++ rest) k).getD .vNull = v := by
  unfold nullOpt
  by_cases h : v.isNull = true
  · rw [if_pos h, dictGet_optEntry_self_none, hrest, (PyVal.isNull_iff v).mp h]
    rfl
  · rw [if_neg h, dictGet_optEntry_self_some]
    rfl

theorem dictContains_eq_isSome (d : Dict) (k : String) :
    dictContains d k = (dictGet d k).isSome := by
  induction d with
  | nil => rfl
  | cons e rest ih =>
    by_cases h : (e.1 == k) = true
    · simp [dictContains, dictGet, List.find?, h]
    · rw [Bool.not_eq_true] at h
      simp [dictContains, dictGet, List.find?, h] at ih ⊢
      exact ih

theorem dictGet_dictErase_ne (d : Dict) (k f : String) (h : k ≠ f) :
    dictGet (dictErase d f) k = dictGet d k := by
  induction d with
  | nil => rfl
  | cons e rest ih =>
    obtain ⟨a, v⟩ := e
    simp only [dictErase, List.filter_cons] at ih ⊢
    by_cases haf : a = f
    · subst haf
      rw [if_neg (show ¬(((a, v).1 != a) = true) by simp [bne])]
      rw [ih, dictGet_cons_ne a k v rest (by simp [beq_iff_eq]; exact fun hh => h hh.symm)]
    · rw [if_pos (show ((a, v).1 != f) = true by simp [bne]; exact haf)]
      by_cases hak : a = k
      · subst hak
        rw [dictGet_cons_self, dictGet_cons_self]
      · rw [dictGet_cons_ne a k v _ (by simp [beq_iff_eq]; exact hak),
          dictGet_cons_ne a k v rest (by simp [beq_iff_eq]; exact hak)]
        exact ih

theorem dictGet_dictErase_self (d : Dict) (f : String) :
    dictGet (dictErase d f) f = none := by
  induction d with
  | nil => rfl
  | cons e rest ih =>
    obtain ⟨a, v⟩ := e
    simp only [dictErase, List.filter_cons] at ih ⊢
    by_cases haf : a = f
    · subst haf
      rw [if_neg (show ¬(((a, v).1 != a) = true) by simp [bne])]
      exact ih
    · rw [if_pos (show ((a, v).1 != f) = true by simp [bne]; exact haf)]
      rw [dictGet_cons_ne a f v _ (by simp [beq_iff_eq]; exact haf)]
      exact ih

end Wols

namespace Wols

/-! ### Claim C9 -/

/-- C9: for every input to `validate_specimen`, the returned
`ValidationResult` has `valid` true iff its `errors` list is empty, and
`valid` is a function of `errors` alone, so the warnings list never
affects it.  (A `Specimen` input is validated as its `to_dict`
projection, so quantifying over raw mappings covers every input.) -/
theorem validateSpecimen_valid_iff_errors_empty :
    (∀ (d : Dict) (strict : Bool),
      ((validateSpecimen d strict).valid = true ↔ (validateSpecimen d strict).errors = []))
    ∧ (∀ (d₁ : Dict) (s₁ : Bool) (d₂ : Dict) (s₂ : Bool),
        (validateSpecimen d₁ s₁).errors = (validateSpecimen d₂ s₂).errors →
        (validateSpecimen d₁ s₁).valid = (validateSpecimen d₂ s₂).valid) := by
  have hv : ∀ (d : Dict) (s : Bool),
      (validateSpecimen d s).valid = (validateSpecimen d s).errors.isEmpty :=
    fun d s => rfl
  constructor
  · intro d strict
    rw [hv]
    exact List.isEmpty_iff
  · intro d₁ s₁ d₂ s₂ h
    rw [hv, hv, h]

/-- C9 witness: two concrete inputs with identical (empty) error lists —
the second adds a version-mismatch warning — get the same `valid`. -/
theorem validateSpecimen_valid_iff_errors_empty_witness :
    (validateSpecimen [("id", .vStr "wemush:abcdefghijklmnopqrstuvwx"),
        ("type", .vStr "CULTURE"), ("species", .vStr "Test")] false).errors
      = (validateSpecimen [("id", .vStr "wemush:abcdefghijklmnopqrstuvwx"),
          ("type", .vStr "CULTURE"), ("species", .vStr "Test"),
          ("version", .vStr "9.9.9")] false).errors
    ∧ (validateSpecimen [("id", .vStr "wemush:abcdefghijklmnopqrstuvwx"),
        ("type", .vStr "CULTURE"), ("species", .vStr "Test")] false).valid
      = (validateSpecimen [("id", .vStr "wemush:abcdefghijklmnopqrstuvwx"),
          ("type", .vStr "CULTURE"), ("species", .vStr "Test"),
          ("version", .vStr "9.9.9")] false).valid :=
  ⟨by decide, validateSpecimen_valid_iff_errors_empty.2 _ _ _ _ (by decide)⟩

/-! ### Claim C5 -/

/-- C5: decoding `web+wemush://v1/abc123?s=PO&st=COL` yields the reference
with id `abc123`, species code `PO` and stage COLONIZATION; decoding
`https://wemush.com/s/v1/abc123?s=PO` yields the same id and species code
with no stage. -/
theorem parseCompactUrl_scheme_coverage :
    parseCompactUrl "web+wemush://v1/abc123?s=PO&st=COL"
      = .ok ⟨"abc123", some "PO", some .COLONIZATION, [("s", "PO"), ("st", "COL")]⟩
    ∧ parseCompactUrl "https://wemush.com/s/v1/abc123?s=PO"
      = .ok ⟨"abc123", some "PO", none, [("s", "PO")]⟩ :=
  ⟨rfl, rfl⟩

/-! ### Claim C1

The registry of the claim's scenario, registered through
`register_migration` with the version-stamping handlers the repository's
own tests use (`tests/unit/test_migration.py::test_migrate_multi_step`). -/

/-- A handler that stamps the target version, as in the repository's tests. -/
def stampVersion (toVersion : String) : MigrationHandler :=
  fun d => dictSet d "version" (.vStr toVersion)

/-- Registry with edges (1.0.0 → 1.1.0) and (1.1.0 → 1.2.0). -/
def chainRegistry : MigrationRegistry :=
  registerMigration
    (registerMigration [] "1.0.0" "1.1.0" (stampVersion "1.1.0"))
    "1.1.0" "1.2.0" (stampVersion "1.2.0")

/-- C1: with edges (1.0.0→1.1.0), (1.1.0→1.2.0) registered, `migrate` on a
1.0.0 record stops as soon as the pointer reaches `WOLS_VERSION`, which
`wols/constants.py` sets to `"1.1.0"`, so the result carries version
`"1.1.0"` — not the `"1.2.0"` that the claim, the `migration.py`
docstrings (`get_current_version()` → `'1.2.0'`) and
`tests/unit/test_migration.py` all expect.  The no-path half of the claim
does hold: a 0.9.0 record raises the no-migration-path error. -/
theorem migrate_chain_stops_at_WOLS_VERSION :
    MigrateResult chainRegistry
      [("id", .vStr "wemush:x"), ("version", .vStr "1.0.0"), ("species", .vStr "Test")]
      (.ok [("id", .vStr "wemush:x"), ("version", .vStr "1.1.0"),
            ("species", .vStr "Test")])
    ∧ MigrateResult chainRegistry [("version", .vStr "0.9.0")] (.error .noPath) :=
  ⟨⟨10, rfl⟩, ⟨10, rfl⟩⟩

/-! ### Claim C7 -/

/-- C7 counterexample: `normalize_generation` with target PRESERVE does
not return the input verbatim on `"P1"` — it returns `"P"`. -/
theorem normalizeGeneration_preserve_not_verbatim :
    normalizeGeneration "P1" GenerationFormat.PRESERVE = "P"
    ∧ normalizeGeneration "P1" GenerationFormat.PRESERVE ≠ "P1" :=
  ⟨rfl, by decide⟩

/-- C7 amended: PRESERVE returns the input verbatim except when the
trimmed uppercased input is `P` or `P1`, where the literal `"P"` is
returned; and any input outside the generation grammar is returned
unchanged for every target format (normalization is total — the embedded
function cannot raise). -/
theorem normalizeGeneration_preserve_amended :
    (∀ s : String, pyUpper (pyStrip s) ≠ "P" → pyUpper (pyStrip s) ≠ "P1" →
      normalizeGeneration s .PRESERVE = s)
    ∧ (∀ (s : String) (fmt : GenerationFormat), isValidGeneration s = false →
      normalizeGeneration s fmt = s) := by
  constructor
  · intro s h1 h2
    unfold normalizeGeneration
    rw [if_neg (by simp [h1, h2])]
    cases genMatchNum (pyUpper (pyStrip s)).data <;> rfl
  · intro s fmt h
    unfold isValidGeneration at h
    simp only [Bool.or_eq_false_iff, beq_eq_false_iff_ne] at h
    obtain ⟨⟨h1, h2⟩, h3⟩ := h
    unfold normalizeGeneration
    rw [if_neg (by simp [h1, h2])]
    cases hm : genMatchNum (pyUpper (pyStrip s)).data with
    | none => rfl
    | some n => rw [hm] at h3; simp at h3

/-- C7 witness: the amended statement applied at `" f2 "` (grammar member,
returned verbatim under PRESERVE) and at `"hello"` (unparseable, returned
unchanged under FILIAL). -/
theorem normalizeGeneration_preserve_amended_witness :
    normalizeGeneration " f2 " .PRESERVE = " f2 "
    ∧ normalizeGeneration "hello" .FILIAL = "hello" :=
  ⟨normalizeGeneration_preserve_amended.1 " f2 " (by decide) (by decide),
   normalizeGeneration_preserve_amended.2 "hello" .FILIAL (by decide)⟩

end Wols

namespace Wols

/-! ### Claim C10 -/

/-- Helper: a successful `Specimen.from_dict` always fills `version` from
`data.get("version", WOLS_VERSION)`. -/
theorem from_dict_version_of_ok (data : Dict) (sp : Specimen)
    (h : Specimen.from_dict data = .ok sp) :
    sp.version = (dictGet data "version").getD (.vStr WOLS_VERSION) := by
  unfold Specimen.from_dict at h
  simp only [bind, Except.bind] at h
  repeat' split at h
  all_goals try cases h
  all_goals rfl

/-- Helper: a document accepted by `parse_specimen` was accepted by
`Specimen.from_dict` with the same result. -/
theorem parseSpecimen_ok_from_dict (data : Dict) (sp : Specimen)
    (h : parseSpecimen (.vDict data) = .ok sp) :
    Specimen.from_dict data = .ok sp := by
  have hr : parseSpecimen (.vDict data) =
      (if (!dictContains data "id" || !dictContains data "type"
          || !dictContains data "species") = true then
        Except.error ParseFail.requiredField
      else
        match Specimen.from_dict data with
        | .ok sp => .ok sp
        | .error .keyError => .error ParseFail.parseError
        | .error .valueError => .error ParseFail.parseError
        | .error e => .error (ParseFail.uncaught e)) := rfl
  rw [hr] at h
  by_cases hc : (!dictContains data "id" || !dictContains data "type"
      || !dictContains data "species") = true
  · rw [if_pos hc] at h
    cases h
  · rw [if_neg hc] at h
    cases hfd : Specimen.from_dict data with
    | ok sp' =>
      simp only [hfd] at h
      injection h with h'
      rw [h']
    | error e =>
      cases e <;> simp [hfd] at h

/-- C10: every JSON document accepted by `parse_specimen` that has no
`version` key yields a `Specimen` whose `version` is the library's current
version string `WOLS_VERSION` (the oldest known version, `"1.0.0"`, plays
no role in parsing). -/
theorem parseSpecimen_missing_version_defaults (data : Dict) (sp : Specimen)
    (h : parseSpecimen (.vDict data) = .ok sp)
    (hv : dictContains data "version" = false) :
    sp.version = .vStr WOLS_VERSION := by
  have hget : dictGet data "version" = none := by
    rw [dictContains_eq_isSome] at hv
    exact Option.not_isSome_iff_eq_none.mp (by simp [hv])
  rw [from_dict_version_of_ok data sp (parseSpecimen_ok_from_dict data sp h), hget]
  rfl

/-- The concrete version-less document of the C10 witness. -/
def versionlessDoc : Dict :=
  [("id", .vStr "wemush:c10doc"), ("type", .vStr "CULTURE"),
   ("species", .vStr "Hericium erinaceus")]

/-- The `Specimen` that `parse_specimen` produces from `versionlessDoc`. -/
def versionlessSpecimen : Specimen :=
  ⟨.vStr "wemush:c10doc", .vStr WOLS_VERSION, .CULTURE,
   .vStr "Hericium erinaceus", none, none, none,
   .vNull, .vNull, .vNull, .vNull, .vNull⟩

/-- C10 witness: a concrete version-less document parses to a `Specimen`
carrying `WOLS_VERSION`. -/
theorem parseSpecimen_missing_version_defaults_witness :
    parseSpecimen (.vDict versionlessDoc) = .ok versionlessSpecimen
    ∧ versionlessSpecimen.version = .vStr WOLS_VERSION :=
  ⟨rfl, parseSpecimen_missing_version_defaults versionlessDoc versionlessSpecimen rfl rfl⟩

end Wols

namespace Wols

/-! ### Claim C3 -/

theorem unknownFieldErrors_erase (d : Dict) (f : String)
    (hf : knownFields.contains f = true) :
    unknownFieldErrors (dictErase d f) = unknownFieldErrors d := by
  induction d with
  | nil => rfl
  | cons e rest ih =>
    obtain ⟨a, v⟩ := e
    by_cases haf : a = f
    · subst haf
      have h1 : dictErase ((a, v) :: rest) a = dictErase rest a := by
        simp [dictErase, List.filter_cons, bne]
      rw [h1, ih]
      have hmem : a ∈ knownFields := by simpa using hf
      simp [unknownFieldErrors, List.filterMap_cons, hmem]
    · have h1 : dictErase ((a, v) :: rest) f = (a, v) :: dictErase rest f := by
        simp [dictErase, List.filter_cons, bne, haf]
      rw [h1]
      simp only [unknownFieldErrors, List.filterMap_cons] at ih ⊢
      rw [ih]

theorem idCheckErrors_erase (d : Dict) (f : String) (h : f ≠ "id") :
    idCheckErrors (dictErase d f) = idCheckErrors d := by
  unfold idCheckErrors
  rw [dictGet_dictErase_ne d "id" f (fun hh => h hh.symm)]

theorem typeCheckErrors_erase (d : Dict) (f : String) (h : f ≠ "type") :
    typeCheckErrors (dictErase d f) = typeCheckErrors d := by
  unfold typeCheckErrors
  rw [dictGet_dictErase_ne d "type" f (fun hh => h hh.symm)]

theorem speciesCheckErrors_erase (d : Dict) (f : String) (h : f ≠ "species") :
    speciesCheckErrors (dictErase d f) = speciesCheckErrors d := by
  unfold speciesCheckErrors
  rw [dictGet_dictErase_ne d "species" f (fun hh => h hh.symm)]

theorem versionCheckErrors_erase (d : Dict) (f : String) (h : f ≠ "version") :
    versionCheckErrors (dictErase d f) = versionCheckErrors d := by
  unfold versionCheckErrors
  rw [dictGet_dictErase_ne d "version" f (fun hh => h hh.symm)]

theorem versionCheckWarnings_erase (d : Dict) (f : String) (h : f ≠ "version") :
    versionCheckWarnings (dictErase d f) = versionCheckWarnings d := by
  unfold versionCheckWarnings
  rw [dictGet_dictErase_ne d "version" f (fun hh => h hh.symm)]

theorem stageCheckErrors_erase (d : Dict) (f : String) (h : f ≠ "stage") :
    stageCheckErrors (dictErase d f) = stageCheckErrors d := by
  unfold stageCheckErrors
  rw [dictGet_dictErase_ne d "stage" f (fun hh => h hh.symm)]

theorem strainCheckErrors_erase (d : Dict) (f : String) (h : f ≠ "strain") :
    strainCheckErrors (dictErase d f) = strainCheckErrors d := by
  unfold strainCheckErrors
  rw [dictGet_dictErase_ne d "strain" f (fun hh => h hh.symm)]

theorem createdCheckErrors_erase (d : Dict) (f : String) (h : f ≠ "created") :
    createdCheckErrors (dictErase d f) = createdCheckErrors d := by
  unfold createdCheckErrors
  rw [dictGet_dictErase_ne d "created" f (fun hh => h hh.symm)]

theorem optStringFieldErrors_erase (d : Dict) (f g : String) (h : f ≠ g) :
    optStringFieldErrors (dictErase d f) g = optStringFieldErrors d g := by
  unfold optStringFieldErrors
  rw [dictGet_dictErase_ne d g f (fun hh => h hh.symm)]

theorem customCheckErrors_erase (d : Dict) (f : String) (h : f ≠ "custom") :
    customCheckErrors (dictErase d f) = customCheckErrors d := by
  unfold customCheckErrors
  rw [dictGet_dictErase_ne d "custom" f (fun hh => h hh.symm)]

/-- C3 counterexample: a present-but-null `version` is not equivalent to an
absent one — it is an `INVALID_TYPE` error (likewise `stage` and `strain`,
whose null values fail their `isinstance` checks). -/
theorem validateSpecimen_null_version_differs :
    (validateSpecimen [("id", .vStr "wemush:abcdefghijklmnopqrstuvwx"),
        ("type", .vStr "CULTURE"), ("species", .vStr "Test"),
        ("version", .vNull)] false).errors
      = [⟨"version", "INVALID_TYPE", "Expected string, got NoneType"⟩]
    ∧ (validateSpecimen (dictErase [("id", .vStr "wemush:abcdefghijklmnopqrstuvwx"),
        ("type", .vStr "CULTURE"), ("species", .vStr "Test"),
        ("version", .vNull)] "version") false).errors = []
    ∧ validateSpecimen [("id", .vStr "wemush:abcdefghijklmnopqrstuvwx"),
        ("type", .vStr "CULTURE"), ("species", .vStr "Test"),
        ("version", .vNull)] false
      ≠ validateSpecimen (dictErase [("id", .vStr "wemush:abcdefghijklmnopqrstuvwx"),
          ("type", .vStr "CULTURE"), ("species", .vStr "Test"),
          ("version", .vNull)] "version") false :=
  ⟨by decide, by decide, by decide⟩

/-- C3 amended: for the optional fields `created`, `batch`, `organization`,
`creator`, `signature` and `custom` — the ones whose checks carry an
`is not None` guard — mapping the field to null gives exactly the same
errors and warnings as leaving it absent.  For `version`, `stage` and
`strain` a present null fails the type check with `INVALID_TYPE`. -/
theorem validateSpecimen_null_optional_amended (d : Dict) (strict : Bool) (f : String)
    (hf : f ∈ (["created", "batch", "organization", "creator", "signature",
      "custom"] : List String))
    (hnull : dictGet d f = some .vNull) :
    validateSpecimen d strict = validateSpecimen (dictErase d f) strict := by
fin_cases hf
· unfold validateSpecimen validationErrors validationWarnings
  have h1 : createdCheckErrors d = [] := by unfold createdCheckErrors; rw [hnull]
  have h2 : createdCheckErrors (dictErase d "created") = [] := by
    unfold createdCheckErrors; rw [dictGet_dictErase_self]
  rw [unknownFieldErrors_erase d "created" (by decide),
      idCheckErrors_erase d "created" (by decide),
      typeCheckErrors_erase d "created" (by decide),
      speciesCheckErrors_erase d "created" (by decide),
      versionCheckErrors_erase d "created" (by decide),
      versionCheckWarnings_erase d "created" (by decide),
      stageCheckErrors_erase d "created" (by decide),
      strainCheckErrors_erase d "created" (by decide),
      optStringFieldErrors_erase d "created" "batch" (by decide),
      optStringFieldErrors_erase d "created" "organization" (by decide),
      optStringFieldErrors_erase d "created" "creator" (by decide),
      optStringFieldErrors_erase d "created" "signature" (by decide),
      customCheckErrors_erase d "created" (by decide),
      h1, h2]
· unfold validateSpecimen validationErrors validationWarnings
  have h1 : optStringFieldErrors d "batch" = [] := by
    unfold optStringFieldErrors; rw [hnull]
  have h2 : optStringFieldErrors (dictErase d "batch") "batch" = [] := by
    unfold optStringFieldErrors; rw [dictGet_dictErase_self]
  rw [unknownFieldErrors_erase d "batch" (by decide),
      idCheckErrors_erase d "batch" (by decide),
      typeCheckErrors_erase d "batch" (by decide),
      speciesCheckErrors_erase d "batch" (by decide),
      versionCheckErrors_erase d "batch" (by decide),
      versionCheckWarnings_erase d "batch" (by decide),
      stageCheckErrors_erase d "batch" (by decide),
      strainCheckErrors_erase d "batch" (by decide),
      createdCheckErrors_erase d "batch" (by decide),
      optStringFieldErrors_erase d "batch" "organization" (by decide),
      optStringFieldErrors_erase d "batch" "creator" (by decide),
      optStringFieldErrors_erase d "batch" "signature" (by decide),
      customCheckErrors_erase d "batch" (by decide),
      h1, h2]
· unfold validateSpecimen validationErrors validationWarnings
  have h1 : optStringFieldErrors d "organization" = [] := by
    unfold optStringFieldErrors; rw [hnull]
  have h2 : optStringFieldErrors (dictErase d "organization") "organization" = [] := by
    unfold optStringFieldErrors; rw [dictGet_dictErase_self]
  rw [unknownFieldErrors_erase d "organization" (by decide),
      idCheckErrors_erase d "organization" (by decide),
      typeCheckErrors_erase d "organization" (by decide),
      speciesCheckErrors_erase d "organization" (by decide),
      versionCheckErrors_erase d "organization" (by decide),
      versionCheckWarnings_erase d "organization" (by decide),
      stageCheckErrors_erase d "organization" (by decide),
      strainCheckErrors_erase d "organization" (by decide),
      createdCheckErrors_erase d "organization" (by decide),
      optStringFieldErrors_erase d "organization" "batch" (by decide),
      optStringFieldErrors_erase d "organization" "creator" (by decide),
      optStringFieldErrors_erase d "organization" "signature" (by decide),
      customCheckErrors_erase d "organization" (by decide),
      h1, h2]
· unfold validateSpecimen validationErrors validationWarnings
  have h1 : optStringFieldErrors d "creator" = [] := by
    unfold optStringFieldErrors; rw [hnull]
  have h2 : optStringFieldErrors (dictErase d "creator") "creator" = [] := by
    unfold optStringFieldErrors; rw [dictGet_dictErase_self]
  rw [unknownFieldErrors_erase d "creator" (by decide),
      idCheckErrors_erase d "creator" (by decide),
      typeCheckErrors_erase d "creator" (by decide),
      speciesCheckErrors_erase d "creator" (by decide),
      versionCheckErrors_erase d "creator" (by decide),
      versionCheckWarnings_erase d "creator" (by decide),
      stageCheckErrors_erase d "creator" (by decide),
      strainCheckErrors_erase d "creator" (by decide),
      createdCheckErrors_erase d "creator" (by decide),
      optStringFieldErrors_erase d "creator" "batch" (by decide),
      optStringFieldErrors_erase d "creator" "organization" (by decide),
      optStringFieldErrors_erase d "creator" "signature" (by decide),
      customCheckErrors_erase d "creator" (by decide),
      h1, h2]
· unfold validateSpecimen validationErrors validationWarnings
  have h1 : optStringFieldErrors d "signature" = [] := by
    unfold optStringFieldErrors; rw [hnull]
  have h2 : optStringFieldErrors (dictErase d "signature") "signature" = [] := by
    unfold optStringFieldErrors; rw [dictGet_dictErase_self]
  rw [unknownFieldErrors_erase d "signature" (by decide),
      idCheckErrors_erase d "signature" (by decide),
      typeCheckErrors_erase d "signature" (by decide),
      speciesCheckErrors_erase d "signature" (by decide),
      versionCheckErrors_erase d "signature" (by decide),
      versionCheckWarnings_erase d "signature" (by decide),
      stageCheckErrors_erase d "signature" (by decide),
      strainCheckErrors_erase d "signature" (by decide),
      createdCheckErrors_erase d "signature" (by decide),
      optStringFieldErrors_erase d "signature" "batch" (by decide),
      optStringFieldErrors_erase d "signature" "organization" (by decide),
      optStringFieldErrors_erase d "signature" "creator" (by decide),
      customCheckErrors_erase d "signature" (by decide),
      h1, h2]
· unfold validateSpecimen validationErrors validationWarnings
  have h1 : customCheckErrors d = [] := by unfold customCheckErrors; rw [hnull]
  have h2 : customCheckErrors (dictErase d "custom") = [] := by
    unfold customCheckErrors; rw [dictGet_dictErase_self]
  rw [unknownFieldErrors_erase d "custom" (by decide),
      idCheckErrors_erase d "custom" (by decide),
      typeCheckErrors_erase d "custom" (by decide),
      speciesCheckErrors_erase d "custom" (by decide),
      versionCheckErrors_erase d "custom" (by decide),
      versionCheckWarnings_erase d "custom" (by decide),
      stageCheckErrors_erase d "custom" (by decide),
      strainCheckErrors_erase d "custom" (by decide),
      createdCheckErrors_erase d "custom" (by decide),
      optStringFieldErrors_erase d "custom" "batch" (by decide),
      optStringFieldErrors_erase d "custom" "organization" (by decide),
      optStringFieldErrors_erase d "custom" "creator" (by decide),
      optStringFieldErrors_erase d "custom" "signature" (by decide),
      h1, h2]

/-- C3 witness: the amended statement applied to a concrete mapping whose
`batch` is null. -/
theorem validateSpecimen_null_optional_amended_witness :
    dictGet [("id", PyVal.vStr "wemush:abcdefghijklmnopqrstuvwx"),
        ("batch", PyVal.vNull)] "batch" = some .vNull
    ∧ validateSpecimen [("id", PyVal.vStr "wemush:abcdefghijklmnopqrstuvwx"),
        ("batch", PyVal.vNull)] false
      = validateSpecimen (dictErase [("id", PyVal.vStr "wemush:abcdefghijklmnopqrstuvwx"),
          ("batch", PyVal.vNull)] "batch") false :=
  ⟨rfl, validateSpecimen_null_optional_amended
    [("id", PyVal.vStr "wemush:abcdefghijklmnopqrstuvwx"), ("batch", PyVal.vNull)]
    false "batch" (by decide) rfl⟩

end Wols

namespace Wols

/-! ### Claim C6

The validator's id check uses `ID_PATTERN` (`^wemush:[a-z0-9]{24}$`), while
the default strict mode of `validate_specimen_id` uses `STRICT_PATTERN`
(`^wemush:[a-z0-9]+$`): the validator additionally pins the suffix to
exactly 24 characters, so the two agree only in one direction.  The
lemmas below show no block of the validator other than the id check can
report an error at path `id`. -/
theorem unknownFieldErrors_no_id_path (d : Dict) :
    (unknownFieldErrors d).any (fun e => e.path == "id") = false := by
  rw [List.any_eq_false]
  intro e he
  unfold unknownFieldErrors at he
  rw [List.mem_filterMap] at he
  obtain ⟨a, _, hcond⟩ := he
  by_cases hk : knownFields.contains a.1 = true
  · rw [if_pos hk] at hcond
    cases hcond
  · rw [if_neg hk] at hcond
    injection hcond with hcond
    subst hcond
    intro hid
    have ha : a.1 = "id" := beq_iff_eq.mp hid
    exact hk (by rw [ha]; decide)

theorem typeCheckErrors_no_id_path (d : Dict) :
    (typeCheckErrors d).any (fun e => e.path == "id") = false := by
  unfold typeCheckErrors
  split <;> first | rfl | (try split) <;> simp

theorem speciesCheckErrors_no_id_path (d : Dict) :
    (speciesCheckErrors d).any (fun e => e.path == "id") = false := by
  unfold speciesCheckErrors
  split <;> first | rfl | (try split) <;> simp

theorem versionCheckErrors_no_id_path (d : Dict) :
    (versionCheckErrors d).any (fun e => e.path == "id") = false := by
  unfold versionCheckErrors
  split <;> simp

theorem stageCheckErrors_no_id_path (d : Dict) :
    (stageCheckErrors d).any (fun e => e.path == "id") = false := by
  unfold stageCheckErrors
  split <;> first | rfl | (try split) <;> simp

theorem strainGenFieldErrors_gen_no_id_path (sd : Dict) (g : String)
    (hg : ("strain." ++ g == "id") = false) :
    (strainGenFieldErrors sd g).any (fun e => e.path == "id") = false := by
  unfold strainGenFieldErrors
  split
  · rfl
  · split
    · simp [hg]
    · split <;> simp [hg]

theorem strainCheckErrors_no_id_path (d : Dict) :
    (strainCheckErrors d).any (fun e => e.path == "id") = false := by
  unfold strainCheckErrors
  split
  · rfl
  · rw [List.any_append, List.any_append]
    rw [strainGenFieldErrors_gen_no_id_path _ "generation" (by decide),
        strainGenFieldErrors_gen_no_id_path _ "clonalGeneration" (by decide)]
    simp only [Bool.or_false]
    split <;> first | rfl | (try split) <;> simp
  · rfl
  · simp

theorem createdCheckErrors_no_id_path (d : Dict) :
    (createdCheckErrors d).any (fun e => e.path == "id") = false := by
  unfold createdCheckErrors
  split <;> simp

theorem optStringFieldErrors_no_id_path (d : Dict) (g : String)
    (hg : (g == "id") = false) :
    (optStringFieldErrors d g).any (fun e => e.path == "id") = false := by
  unfold optStringFieldErrors
  split <;> simp [hg]

theorem customCheckErrors_no_id_path (d : Dict) :
    (customCheckErrors d).any (fun e => e.path == "id") = false := by
  unfold customCheckErrors
  split <;> simp

theorem idCheckErrors_any_of_str (d : Dict) (s : String)
    (h : dictGet d "id" = some (.vStr s)) :
    (idCheckErrors d).any (fun e => e.path == "id") = !(matchesIdPattern s) := by
  unfold idCheckErrors
  simp only [h]
  by_cases hm : matchesIdPattern s = true
  · rw [if_pos hm, hm]
    rfl
  · rw [if_neg hm]
    rw [Bool.not_eq_true] at hm
    rw [hm]
    rfl

theorem pyStartsWith_of_dropLast (s pre : String)
    (h : pyStartsWith ⟨s.data.dropLast⟩ pre = true) : pyStartsWith s pre = true := by
  unfold pyStartsWith at h ⊢
  rw [List.isPrefixOf_iff_prefix] at h ⊢
  exact h.trans (List.dropLast_prefix s.data)

theorem idPatternBody_imp_strict (t : String)
    (h : idPatternBody t = true) : strictPatternBody t = true := by
  unfold idPatternBody at h
  unfold strictPatternBody
  simp only [Bool.and_eq_true] at h ⊢
  obtain ⟨h1, h2, h3⟩ := h
  refine ⟨h1, ?_, h3⟩
  rw [beq_iff_eq] at h2
  cases hd : (pyDropChars t (ID_PREFIX ++ ":").length).data with
  | nil =>
    exfalso
    have : (pyDropChars t (ID_PREFIX ++ ":").length).length = 0 := by
      show (pyDropChars t (ID_PREFIX ++ ":").length).data.length = 0
      rw [hd]
      rfl
    omega
  | cons c rest => simp [hd]

theorem matchesIdPattern_imp_strict (s : String)
    (h : matchesIdPattern s = true) : matchesStrictPattern s = true := by
  unfold matchesIdPattern pyFullMatch at h
  unfold matchesStrictPattern pyFullMatch
  rw [Bool.or_eq_true] at h ⊢
  cases h with
  | inl hb => exact Or.inl (idPatternBody_imp_strict s hb)
  | inr hb =>
    rw [Bool.and_eq_true] at hb
    refine Or.inr ?_
    rw [Bool.and_eq_true]
    exact ⟨hb.1, idPatternBody_imp_strict _ hb.2⟩

theorem matchesIdPattern_startsWith (s : String)
    (h : matchesIdPattern s = true) : pyStartsWith s (ID_PREFIX ++ ":") = true := by
  unfold matchesIdPattern pyFullMatch idPatternBody at h
  rw [Bool.or_eq_true] at h
  cases h with
  | inl hb =>
    rw [Bool.and_eq_true] at hb
    exact hb.1
  | inr hb =>
    rw [Bool.and_eq_true] at hb
    have hb2 := hb.2
    rw [Bool.and_eq_true] at hb2
    exact pyStartsWith_of_dropLast s _ hb2.1

theorem matchesIdPattern_suffix_ne (s : String)
    (h : matchesIdPattern s = true) :
    (pyDropChars s (ID_PREFIX ++ ":").length).data.isEmpty = false := by
  unfold matchesIdPattern pyFullMatch idPatternBody at h
  rw [Bool.or_eq_true] at h
  have hlen : 0 < (pyDropChars s (ID_PREFIX ++ ":").length).data.length := by
    show 0 < (s.data.drop (ID_PREFIX ++ ":").length).length
    rw [List.length_drop]
    cases h with
    | inl hb =>
      rw [Bool.and_eq_true] at hb
      have hb2 := hb.2
      rw [Bool.and_eq_true] at hb2
      have h24 : (pyDropChars s (ID_PREFIX ++ ":").length).length = 24 :=
        beq_iff_eq.mp hb2.1
      have h24' : (s.data.drop (ID_PREFIX ++ ":").length).length = 24 := h24
      rw [List.length_drop] at h24'
      omega
    | inr hb =>
      rw [Bool.and_eq_true] at hb
      have hb2 := hb.2
      rw [Bool.and_eq_true] at hb2
      have hb22 := hb2.2
      rw [Bool.and_eq_true] at hb22
      have h24 : (pyDropChars (⟨s.data.dropLast⟩ : String) (ID_PREFIX ++ ":").length).length = 24 :=
        beq_iff_eq.mp hb22.1
      have h24' : (s.data.dropLast.drop (ID_PREFIX ++ ":").length).length = 24 := h24
      rw [List.length_drop, List.length_dropLast] at h24'
      omega
  cases hd : (pyDropChars s (ID_PREFIX ++ ":").length).data with
  | nil =>
    exfalso
    rw [hd] at hlen
    exact Nat.lt_irrefl 0 hlen
  | cons c rest => rfl

theorem matchesIdPattern_imp_validateStrict (s : String)
    (h : matchesIdPattern s = true) : validateSpecimenId s .STRICT none = true := by
  show (if (!pyStartsWith s (ID_PREFIX ++ ":")) = true then false
      else if (pyDropChars s (ID_PREFIX ++ ":").length).data.isEmpty = true then false
      else matchesStrictPattern s) = true
  rw [matchesIdPattern_startsWith s h]
  rw [if_neg (by simp)]
  rw [matchesIdPattern_suffix_ne s h]
  rw [if_neg (by simp)]
  exact matchesIdPattern_imp_strict s h

theorem validator_no_id_error_iff (d : Dict) (s : String)
    (h : dictGet d "id" = some (.vStr s)) :
    ((validateSpecimen d false).errors.any (fun e => e.path == "id")) = false
      ↔ matchesIdPattern s = true := by
  have he : (validateSpecimen d false).errors = validationErrors d false := rfl
  rw [he]
  unfold validationErrors
  rw [if_neg (by simp)]
  simp only [List.nil_append, List.any_append]
  rw [idCheckErrors_any_of_str d s h, typeCheckErrors_no_id_path,
    speciesCheckErrors_no_id_path, versionCheckErrors_no_id_path,
    stageCheckErrors_no_id_path, strainCheckErrors_no_id_path,
    createdCheckErrors_no_id_path,
    optStringFieldErrors_no_id_path d "batch" (by decide),
    optStringFieldErrors_no_id_path d "organization" (by decide),
    optStringFieldErrors_no_id_path d "creator" (by decide),
    optStringFieldErrors_no_id_path d "signature" (by decide),
    customCheckErrors_no_id_path]
  cases hm : matchesIdPattern s <;> simp

/-- C6 counterexample: `"wemush:abc"` passes the default strict mode of
`validate_specimen_id` but the validator reports an `id` error for it —
the claimed equivalence fails. -/
theorem validator_id_check_strict_mismatch :
    validateSpecimenId "wemush:abc" .STRICT none = true
    ∧ ((validateSpecimen [("id", PyVal.vStr "wemush:abc")] false).errors.any
        (fun e => e.path == "id")) = true :=
  ⟨by decide, by decide⟩

/-- C6 amended: the validator's id check enforces exactly `ID_PATTERN`
(`wemush:` + exactly 24 lowercase alphanumerics): it reports no error at
path `id` iff the id string matches that pattern; this is strictly
stronger than the default strict mode — every `ID_PATTERN` match passes
`validate_specimen_id(s, STRICT)`, but not conversely. -/
theorem validator_id_check_amended :
    (∀ (d : Dict) (s : String), dictGet d "id" = some (.vStr s) →
      (((validateSpecimen d false).errors.any (fun e => e.path == "id")) = false
        ↔ matchesIdPattern s = true))
    ∧ (∀ s : String, matchesIdPattern s = true →
        validateSpecimenId s .STRICT none = true) :=
  ⟨validator_no_id_error_iff, matchesIdPattern_imp_validateStrict⟩

/-- C6 witness: the amended statement applied to a concrete 24-character
id. -/
theorem validator_id_check_amended_witness :
    (((validateSpecimen [("id", PyVal.vStr "wemush:abcdefghijklmnopqrstuvwx")]
        false).errors.any (fun e => e.path == "id")) = false
      ↔ matchesIdPattern "wemush:abcdefghijklmnopqrstuvwx" = true)
    ∧ validateSpecimenId "wemush:abcdefghijklmnopqrstuvwx" .STRICT none = true :=
  ⟨validator_id_check_amended.1 [("id", PyVal.vStr "wemush:abcdefghijklmnopqrstuvwx")]
      "wemush:abcdefghijklmnopqrstuvwx" rfl,
   validator_id_check_amended.2 "wemush:abcdefghijklmnopqrstuvwx" (by decide)⟩

end Wols

namespace Wols

/-! ### Claim C2

Round-trip of the JSON codec.  Note: the repository's `Specimen`
dataclass (`src/wols/models/specimen.py`) has no `_meta` attribute at
all, although `wols/__init__.py` imports `SpecimenMeta` from that module
and `tests/unit/test_meta.py` constructs `Specimen(..., _meta=...)` and
asserts `_meta` round-trips — the `_meta` support the claim (and the
package's own tests) require is missing from the model, so the claim's
`_meta` clause fails on the code as written.  The theorems below prove
the round-trip for every field the code's `Specimen` does carry. -/

theorem SpecimenType.ofString_value_type (t : SpecimenType) :
    SpecimenType.ofString? t.value = some t := by cases t <;> rfl

theorem GrowthStage.ofString_value_stage (g : GrowthStage) :
    GrowthStage.ofString? g.value = some g := by cases g <;> rfl

theorem pyReplaceZ_eq_self (s : String) (h : s.data.all (fun c => c != 'Z') = true) :
    pyReplaceZ s = s := by
  unfold pyReplaceZ
  have hfold : ∀ l : List Char, l.all (fun c => c != 'Z') = true →
      l.foldr (fun c acc => if c == 'Z' then
        '+' :: '0' :: '0' :: ':' :: '0' :: '0' :: acc else c :: acc) [] = l := by
    intro l hl
    induction l with
    | nil => rfl
    | cons c rest ih =>
      rw [List.all_cons, Bool.and_eq_true] at hl
      rw [List.foldr_cons, ih hl.2, if_neg (by simpa [bne] using hl.1)]
  rw [hfold s.data h]

theorem getD_optEntry_nullOpt_nil (k : String) (v : PyVal) :
    (dictGet (optEntry k (nullOpt v)) k).getD .vNull = v := by
  rw [← List.append_nil (optEntry k (nullOpt v))]
  exact getD_optEntry_nullOpt k v [] rfl

theorem Strain.from_to_dict_strain (st : Strain) :
    Strain.from_dict (Strain.to_dict st) = .ok st := by
  obtain ⟨nm, gen, cg, lin, src⟩ := st
  unfold Strain.to_dict Strain.from_dict
  dsimp only
  simp only [List.append_assoc, List.singleton_append, List.cons_append]
  have hg : (dictGet (("name", nm) :: (optEntry "generation" (nullOpt gen)
      ++ (optEntry "clonalGeneration" (nullOpt cg) ++ (optEntry "lineage" (nullOpt lin)
      ++ optEntry "source" (nullOpt src))))) "generation").getD .vNull = gen := by
    rw [dictGet_cons_ne _ _ _ _ (by decide)]
    refine getD_optEntry_nullOpt _ _ _ ?_
    rw [dictGet_optEntry_ne _ _ _ _ (by decide),
      dictGet_optEntry_ne _ _ _ _ (by decide)]
    cases hsrc : nullOpt src with
    | none => rfl
    | some x => exact dictGet_cons_ne _ _ _ _ (by decide)
  have hc : (dictGet (("name", nm) :: (optEntry "generation" (nullOpt gen)
      ++ (optEntry "clonalGeneration" (nullOpt cg) ++ (optEntry "lineage" (nullOpt lin)
      ++ optEntry "source" (nullOpt src))))) "clonalGeneration").getD .vNull = cg := by
    rw [dictGet_cons_ne _ _ _ _ (by decide),
      dictGet_optEntry_ne _ _ _ _ (by decide)]
    refine getD_optEntry_nullOpt _ _ _ ?_
    rw [dictGet_optEntry_ne _ _ _ _ (by decide)]
    cases hsrc : nullOpt src with
    | none => rfl
    | some x => exact dictGet_cons_ne _ _ _ _ (by decide)
  have hl : (dictGet (("name", nm) :: (optEntry "generation" (nullOpt gen)
      ++ (optEntry "clonalGeneration" (nullOpt cg) ++ (optEntry "lineage" (nullOpt lin)
      ++ optEntry "source" (nullOpt src))))) "lineage").getD .vNull = lin := by
    rw [dictGet_cons_ne _ _ _ _ (by decide),
      dictGet_optEntry_ne _ _ _ _ (by decide),
      dictGet_optEntry_ne _ _ _ _ (by decide)]
    refine getD_optEntry_nullOpt _ _ _ ?_
    cases hsrc : nullOpt src with
    | none => rfl
    | some x => exact dictGet_cons_ne _ _ _ _ (by decide)
  have hs : (dictGet (("name", nm) :: (optEntry "generation" (nullOpt gen)
      ++ (optEntry "clonalGeneration" (nullOpt cg) ++ (optEntry "lineage" (nullOpt lin)
      ++ optEntry "source" (nullOpt src))))) "source").getD .vNull = src := by
    rw [dictGet_cons_ne _ _ _ _ (by decide),
      dictGet_optEntry_ne _ _ _ _ (by decide),
      dictGet_optEntry_ne _ _ _ _ (by decide),
      dictGet_optEntry_ne _ _ _ _ (by decide)]
    exact getD_optEntry_nullOpt_nil _ _
  simp only [dictGet_cons_self, List.nil_append, hg, hc, hl, hs]


theorem dictGet_optEntry_self (k : String) (v : Option PyVal) (rest : Dict)
    (hrest : dictGet rest k = none) : dictGet (optEntry k v ++ rest) k = v := by
  cases v with
  | none => simpa using hrest
  | some x => exact dictGet_optEntry_self_some k x rest

theorem dictGet_optEntry_ne_nil (k q : String) (v : Option PyVal)
    (h : (k == q) = false) : dictGet (optEntry k v) q = none := by
  cases v with
  | none => rfl
  | some x =>
    show dictGet [(k, x)] q = none
    rw [dictGet_cons_ne k q x [] h]
    rfl

theorem to_dict_get_id (sp : Specimen) :
    dictGet sp.to_dict "id" = some sp.id := by
  obtain ⟨idv, ver, ty, spc, strn, stg, crd, bt, og, cr, cu, sg⟩ := sp
  unfold Specimen.to_dict
  dsimp only
  simp only [List.append_assoc, List.singleton_append, List.cons_append, List.nil_append]
  rw [dictGet_cons_ne _ _ _ _ (by decide)]
  rw [dictGet_cons_ne _ _ _ _ (by decide)]
  rw [dictGet_cons_self]

theorem to_dict_get_version (sp : Specimen) :
    dictGet sp.to_dict "version" = some sp.version := by
  obtain ⟨idv, ver, ty, spc, strn, stg, crd, bt, og, cr, cu, sg⟩ := sp
  unfold Specimen.to_dict
  dsimp only
  simp only [List.append_assoc, List.singleton_append, List.cons_append, List.nil_append]
  rw [dictGet_cons_ne _ _ _ _ (by decide)]
  rw [dictGet_cons_ne _ _ _ _ (by decide)]
  rw [dictGet_cons_ne _ _ _ _ (by decide)]
  rw [dictGet_cons_self]

theorem to_dict_get_type (sp : Specimen) :
    dictGet sp.to_dict "type" = some (.vStr sp.type.value) := by
  obtain ⟨idv, ver, ty, spc, strn, stg, crd, bt, og, cr, cu, sg⟩ := sp
  unfold Specimen.to_dict
  dsimp only
  simp only [List.append_assoc, List.singleton_append, List.cons_append, List.nil_append]
  rw [dictGet_cons_ne _ _ _ _ (by decide)]
  rw [dictGet_cons_ne _ _ _ _ (by decide)]
  rw [dictGet_cons_ne _ _ _ _ (by decide)]
  rw [dictGet_cons_ne _ _ _ _ (by decide)]
  rw [dictGet_cons_self]

theorem to_dict_get_species (sp : Specimen) :
    dictGet sp.to_dict "species" = some sp.species := by
  obtain ⟨idv, ver, ty, spc, strn, stg, crd, bt, og, cr, cu, sg⟩ := sp
  unfold Specimen.to_dict
  dsimp only
  simp only [List.append_assoc, List.singleton_append, List.cons_append, List.nil_append]
  rw [dictGet_cons_ne _ _ _ _ (by decide)]
  rw [dictGet_cons_ne _ _ _ _ (by decide)]
  rw [dictGet_cons_ne _ _ _ _ (by decide)]
  rw [dictGet_cons_ne _ _ _ _ (by decide)]
  rw [dictGet_cons_ne _ _ _ _ (by decide)]
  rw [dictGet_cons_self]

theorem to_dict_get_strain (sp : Specimen) :
    dictGet sp.to_dict "strain" = sp.strain.map (fun st => PyVal.vDict st.to_dict) := by
  obtain ⟨idv, ver, ty, spc, strn, stg, crd, bt, og, cr, cu, sg⟩ := sp
  unfold Specimen.to_dict
  dsimp only
  simp only [List.append_assoc, List.singleton_append, List.cons_append, List.nil_append]
  rw [dictGet_cons_ne _ _ _ _ (by decide)]
  rw [dictGet_cons_ne _ _ _ _ (by decide)]
  rw [dictGet_cons_ne _ _ _ _ (by decide)]
  rw [dictGet_cons_ne _ _ _ _ (by decide)]
  rw [dictGet_cons_ne _ _ _ _ (by decide)]
  rw [dictGet_cons_ne _ _ _ _ (by decide)]
  refine dictGet_optEntry_self _ _ _ ?_
  rw [dictGet_optEntry_ne _ _ _ _ (by decide)]
  rw [dictGet_optEntry_ne _ _ _ _ (by decide)]
  rw [dictGet_optEntry_ne _ _ _ _ (by decide)]
  rw [dictGet_optEntry_ne _ _ _ _ (by decide)]
  rw [dictGet_optEntry_ne _ _ _ _ (by decide)]
  rw [dictGet_optEntry_ne _ _ _ _ (by decide)]
  exact dictGet_optEntry_ne_nil _ _ _ (by decide)

theorem to_dict_get_stage (sp : Specimen) :
    dictGet sp.to_dict "stage" = sp.stage.map (fun g => PyVal.vStr g.value) := by
  obtain ⟨idv, ver, ty, spc, strn, stg, crd, bt, og, cr, cu, sg⟩ := sp
  unfold Specimen.to_dict
  dsimp only
  simp only [List.append_assoc, List.singleton_append, List.cons_append, List.nil_append]
  rw [dictGet_cons_ne _ _ _ _ (by decide)]
  rw [dictGet_cons_ne _ _ _ _ (by decide)]
  rw [dictGet_cons_ne _ _ _ _ (by decide)]
  rw [dictGet_cons_ne _ _ _ _ (by decide)]
  rw [dictGet_cons_ne _ _ _ _ (by decide)]
  rw [dictGet_cons_ne _ _ _ _ (by decide)]
  rw [dictGet_optEntry_ne _ _ _ _ (by decide)]
  refine dictGet_optEntry_self _ _ _ ?_
  rw [dictGet_optEntry_ne _ _ _ _ (by decide)]
  rw [dictGet_optEntry_ne _ _ _ _ (by decide)]
  rw [dictGet_optEntry_ne _ _ _ _ (by decide)]
  rw [dictGet_optEntry_ne _ _ _ _ (by decide)]
  rw [dictGet_optEntry_ne _ _ _ _ (by decide)]
  exact dictGet_optEntry_ne_nil _ _ _ (by decide)

theorem to_dict_get_created (sp : Specimen) :
    dictGet sp.to_dict "created" = sp.created.map (fun dt => PyVal.vStr dt.iso) := by
  obtain ⟨idv, ver, ty, spc, strn, stg, crd, bt, og, cr, cu, sg⟩ := sp
  unfold Specimen.to_dict
  dsimp only
  simp only [List.append_assoc, List.singleton_append, List.cons_append, List.nil_append]
  rw [dictGet_cons_ne _ _ _ _ (by decide)]
  rw [dictGet_cons_ne _ _ _ _ (by decide)]
  rw [dictGet_cons_ne _ _ _ _ (by decide)]
  rw [dictGet_cons_ne _ _ _ _ (by decide)]
  rw [dictGet_cons_ne _ _ _ _ (by decide)]
  rw [dictGet_cons_ne _ _ _ _ (by decide)]
  rw [dictGet_optEntry_ne _ _ _ _ (by decide)]
  rw [dictGet_optEntry_ne _ _ _ _ (by decide)]
  refine dictGet_optEntry_self _ _ _ ?_
  rw [dictGet_optEntry_ne _ _ _ _ (by decide)]
  rw [dictGet_optEntry_ne _ _ _ _ (by decide)]
  rw [dictGet_optEntry_ne _ _ _ _ (by decide)]
  rw [dictGet_optEntry_ne _ _ _ _ (by decide)]
  exact dictGet_optEntry_ne_nil _ _ _ (by decide)

theorem to_dict_getD_batch (sp : Specimen) :
    (dictGet sp.to_dict "batch").getD .vNull = sp.batch := by
  obtain ⟨idv, ver, ty, spc, strn, stg, crd, bt, og, cr, cu, sg⟩ := sp
  unfold Specimen.to_dict
  dsimp only
  simp only [List.append_assoc, List.singleton_append, List.cons_append, List.nil_append]
  rw [dictGet_cons_ne _ _ _ _ (by decide)]
  rw [dictGet_cons_ne _ _ _ _ (by decide)]
  rw [dictGet_cons_ne _ _ _ _ (by decide)]
  rw [dictGet_cons_ne _ _ _ _ (by decide)]
  rw [dictGet_cons_ne _ _ _ _ (by decide)]
  rw [dictGet_cons_ne _ _ _ _ (by decide)]
  rw [dictGet_optEntry_ne _ _ _ _ (by decide)]
  rw [dictGet_optEntry_ne _ _ _ _ (by decide)]
  rw [dictGet_optEntry_ne _ _ _ _ (by decide)]
  refine getD_optEntry_nullOpt _ _ _ ?_
  rw [dictGet_optEntry_ne _ _ _ _ (by decide)]
  rw [dictGet_optEntry_ne _ _ _ _ (by decide)]
  rw [dictGet_optEntry_ne _ _ _ _ (by decide)]
  exact dictGet_optEntry_ne_nil _ _ _ (by decide)

theorem to_dict_getD_organization (sp : Specimen) :
    (dictGet sp.to_dict "organization").getD .vNull = sp.organization := by
  obtain ⟨idv, ver, ty, spc, strn, stg, crd, bt, og, cr, cu, sg⟩ := sp
  unfold Specimen.to_dict
  dsimp only
  simp only [List.append_assoc, List.singleton_append, List.cons_append, List.nil_append]
  rw [dictGet_cons_ne _ _ _ _ (by decide)]
  rw [dictGet_cons_ne _ _ _ _ (by decide)]
  rw [dictGet_cons_ne _ _ _ _ (by decide)]
  rw [dictGet_cons_ne _ _ _ _ (by decide)]
  rw [dictGet_cons_ne _ _ _ _ (by decide)]
  rw [dictGet_cons_ne _ _ _ _ (by decide)]
  rw [dictGet_optEntry_ne _ _ _ _ (by decide)]
  rw [dictGet_optEntry_ne _ _ _ _ (by decide)]
  rw [dictGet_optEntry_ne _ _ _ _ (by decide)]
  rw [dictGet_optEntry_ne _ _ _ _ (by decide)]
  refine getD_optEntry_nullOpt _ _ _ ?_
  rw [dictGet_optEntry_ne _ _ _ _ (by decide)]
  rw [dictGet_optEntry_ne _ _ _ _ (by decide)]
  exact dictGet_optEntry_ne_nil _ _ _ (by decide)

theorem to_dict_getD_creator (sp : Specimen) :
    (dictGet sp.to_dict "creator").getD .vNull = sp.creator := by
  obtain ⟨idv, ver, ty, spc, strn, stg, crd, bt, og, cr, cu, sg⟩ := sp
  unfold Specimen.to_dict
  dsimp only
  simp only [List.append_assoc, List.singleton_append, List.cons_append, List.nil_append]
  rw [dictGet_cons_ne _ _ _ _ (by decide)]
  rw [dictGet_cons_ne _ _ _ _ (by decide)]
  rw [dictGet_cons_ne _ _ _ _ (by decide)]
  rw [dictGet_cons_ne _ _ _ _ (by decide)]
  rw [dictGet_cons_ne _ _ _ _ (by decide)]
  rw [dictGet_cons_ne _ _ _ _ (by decide)]
  rw [dictGet_optEntry_ne _ _ _ _ (by decide)]
  rw [dictGet_optEntry_ne _ _ _ _ (by decide)]
  rw [dictGet_optEntry_ne _ _ _ _ (by decide)]
  rw [dictGet_optEntry_ne _ _ _ _ (by decide)]
  rw [dictGet_optEntry_ne _ _ _ _ (by decide)]
  refine getD_optEntry_nullOpt _ _ _ ?_
  rw [dictGet_optEntry_ne _ _ _ _ (by decide)]
  exact dictGet_optEntry_ne_nil _ _ _ (by decide)

theorem to_dict_getD_custom (sp : Specimen) :
    (dictGet sp.to_dict "custom").getD .vNull = sp.custom := by
  obtain ⟨idv, ver, ty, spc, strn, stg, crd, bt, og, cr, cu, sg⟩ := sp
  unfold Specimen.to_dict
  dsimp only
  simp only [List.append_assoc, List.singleton_append, List.cons_append, List.nil_append]
  rw [dictGet_cons_ne _ _ _ _ (by decide)]
  rw [dictGet_cons_ne _ _ _ _ (by decide)]
  rw [dictGet_cons_ne _ _ _ _ (by decide)]
  rw [dictGet_cons_ne _ _ _ _ (by decide)]
  rw [dictGet_cons_ne _ _ _ _ (by decide)]
  rw [dictGet_cons_ne _ _ _ _ (by decide)]
  rw [dictGet_optEntry_ne _ _ _ _ (by decide)]
  rw [dictGet_optEntry_ne _ _ _ _ (by decide)]
  rw [dictGet_optEntry_ne _ _ _ _ (by decide)]
  rw [dictGet_optEntry_ne _ _ _ _ (by decide)]
  rw [dictGet_optEntry_ne _ _ _ _ (by decide)]
  rw [dictGet_optEntry_ne _ _ _ _ (by decide)]
  refine getD_optEntry_nullOpt _ _ _ ?_
  exact dictGet_optEntry_ne_nil _ _ _ (by decide)

theorem to_dict_getD_signature (sp : Specimen) :
    (dictGet sp.to_dict "signature").getD .vNull = sp.signature := by
  obtain ⟨idv, ver, ty, spc, strn, stg, crd, bt, og, cr, cu, sg⟩ := sp
  unfold Specimen.to_dict
  dsimp only
  simp only [List.append_assoc, List.singleton_append, List.cons_append, List.nil_append]
  rw [dictGet_cons_ne _ _ _ _ (by decide)]
  rw [dictGet_cons_ne _ _ _ _ (by decide)]
  rw [dictGet_cons_ne _ _ _ _ (by decide)]
  rw [dictGet_cons_ne _ _ _ _ (by decide)]
  rw [dictGet_cons_ne _ _ _ _ (by decide)]
  rw [dictGet_cons_ne _ _ _ _ (by decide)]
  rw [dictGet_optEntry_ne _ _ _ _ (by decide)]
  rw [dictGet_optEntry_ne _ _ _ _ (by decide)]
  rw [dictGet_optEntry_ne _ _ _ _ (by decide)]
  rw [dictGet_optEntry_ne _ _ _ _ (by decide)]
  rw [dictGet_optEntry_ne _ _ _ _ (by decide)]
  rw [dictGet_optEntry_ne _ _ _ _ (by decide)]
  rw [dictGet_optEntry_ne _ _ _ _ (by decide)]
  exact getD_optEntry_nullOpt_nil _ _


/-- Whether a `Specimen`'s `created` text is canonical `isoformat` output:
date-prefixed and free of `"Z"` (CPython's `datetime.isoformat` always
renders a UTC offset as `+00:00`, never `Z`). -/
def createdTextOk : Option PyDatetime → Bool
  | none => true
  | some dt => isoDatePrefixOk dt.iso.data && dt.iso.data.all (fun c => c != 'Z')

theorem Specimen.from_to_dict_specimen (sp : Specimen) (h : createdTextOk sp.created = true) :
    Specimen.from_dict sp.to_dict = .ok sp := by
  obtain ⟨idv, ver, ty, spc, strn, stg, crd, bt, og, cr, cu, sg⟩ := sp
  unfold Specimen.from_dict
  rw [to_dict_get_strain _, to_dict_get_stage _, to_dict_get_created _,
    to_dict_get_id _, to_dict_get_type _, to_dict_get_species _,
    to_dict_get_version _, to_dict_getD_batch _, to_dict_getD_organization _,
    to_dict_getD_creator _, to_dict_getD_custom _, to_dict_getD_signature _]
  dsimp only at h ⊢
  cases crd with
  | none =>
    cases strn <;> cases stg <;>
      simp [bind, Except.bind, Except.map, Strain.from_to_dict_strain, GrowthStage.ofString_value_stage,
        SpecimenType.ofString_value_type]
  | some dt =>
    unfold createdTextOk at h
    rw [Bool.and_eq_true] at h
    cases strn <;> cases stg <;>
      simp [bind, Except.bind, Except.map, Strain.from_to_dict_strain, GrowthStage.ofString_value_stage,
        SpecimenType.ofString_value_type, pyReplaceZ_eq_self dt.iso h.2, datetimeFromIsoformat,
        h.1]


/-- C2: `parse_specimen ∘ to_json` reproduces every field the code's
`Specimen` carries — id, version, type, species, every nested `Strain`
field, stage, created (modulo the formatting-precision carve-out built
into the datetime model), batch, organization, creator, custom and
signature.  The `_meta` mapping of the claim does not exist on this
`Specimen`: see the accompanying result entry. -/
theorem parseSpecimen_toJson_roundtrip (sp : Specimen)
    (h : createdTextOk sp.created = true) :
    parseSpecimen (to_json sp) = .ok sp := by
  have hcontains_id : dictContains sp.to_dict "id" = true := by
    rw [dictContains_eq_isSome, to_dict_get_id sp]; rfl
  have hcontains_ty : dictContains sp.to_dict "type" = true := by
    rw [dictContains_eq_isSome, to_dict_get_type sp]; rfl
  have hcontains_spc : dictContains sp.to_dict "species" = true := by
    rw [dictContains_eq_isSome, to_dict_get_species sp]; rfl
  show (if (!dictContains sp.to_dict "id" || !dictContains sp.to_dict "type"
      || !dictContains sp.to_dict "species") = true then
      Except.error ParseFail.requiredField
    else
      match Specimen.from_dict sp.to_dict with
      | .ok sp => .ok sp
      | .error .keyError => .error ParseFail.parseError
      | .error .valueError => .error ParseFail.parseError
      | .error e => .error (ParseFail.uncaught e)) = .ok sp
  rw [hcontains_id, hcontains_ty, hcontains_spc]
  rw [if_neg (by simp)]
  rw [Specimen.from_to_dict_specimen sp h]

/-- A fully-populated concrete `Specimen` for the C2 witness. -/
def roundtripSpecimen : Specimen :=
  ⟨.vStr "wemush:abcdefghijklmnopqrstuvwx", .vStr "1.1.0", .SPAWN,
   .vStr "Lentinula edodes",
   some ⟨.vStr "Blue Oyster", .vInt 3, .vInt 1, .vNull, .vStr "lab"⟩,
   some .COLONIZATION, some ⟨"2024-03-15T08:45:00+00:00"⟩,
   .vStr "BATCH-2024-001", .vStr "WeMush Labs", .vStr "alice",
   .vDict [("note", .vStr "x")], .vNull⟩

/-- C2 witness: the round-trip theorem applied to `roundtripSpecimen`. -/
theorem parseSpecimen_toJson_roundtrip_witness :
    createdTextOk roundtripSpecimen.created = true
    ∧ parseSpecimen (to_json roundtripSpecimen) = .ok roundtripSpecimen :=
  ⟨by decide, parseSpecimen_toJson_roundtrip roundtripSpecimen (by decide)⟩

end Wols

namespace Wols

/-! ### Claims C4 and C8

The two registry walks differ in one place: `can_migrate` iterates the
registry dict in insertion order, `migrate` iterates
`sorted(registry.items())`.  The lemmas below develop the strict version
order the loops use, the measure that bounds a walk over strictly
increasing edges, and the correspondence between the two walks when each
source version has at most one outgoing edge. -/

theorem listIntLt_irrefl (l : List Int) : listIntLt l l = false := by
  induction l with
  | nil => rfl
  | cons x xs ih => simp [listIntLt, ih]

theorem listIntLt_trans (a b c : List Int) (h1 : listIntLt a b = true)
    (h2 : listIntLt b c = true) : listIntLt a c = true := by
  induction a generalizing b c with
  | nil =>
    cases b with
    | nil => cases c <;> simp_all [listIntLt]
    | cons y ys => cases c <;> simp_all [listIntLt]
  | cons x xs ih =>
    cases b with
    | nil => simp [listIntLt] at h1
    | cons y ys =>
      cases c with
      | nil => simp [listIntLt] at h2
      | cons z zs =>
        simp only [listIntLt] at h1 h2 ⊢
        split_ifs at h1 h2 ⊢ <;>
          first
            | rfl
            | omega
            | (exact ih ys zs h1 h2)

/-- Strict version order as the engine computes it: `compare_versions`
returning `-1`. -/
def versionLtB (a b : String) : Bool := compareVersions a b == some (-1)

theorem versionLtB_irrefl (a : String) : versionLtB a a = false := by
  unfold versionLtB compareVersions
  cases h : parseVersion a with
  | none => rfl
  | some va => simp [listIntLt_irrefl]

theorem versionLtB_trans (a b c : String) (h1 : versionLtB a b = true)
    (h2 : versionLtB b c = true) : versionLtB a c = true := by
  unfold versionLtB at h1 h2 ⊢
  rw [beq_iff_eq] at h1 h2 ⊢
  unfold compareVersions at h1 h2 ⊢
  generalize ha : parseVersion a = oa at h1 ⊢
  generalize hb : parseVersion b = ob at h1 h2
  generalize hc : parseVersion c = oc at h2 ⊢
  cases oa <;> cases ob <;> cases oc <;> dsimp only at h1 h2 ⊢
  all_goals try (cases h1)
  all_goals try (cases h2)
  rename_i va vb vc
  rw [Option.some_inj] at h1 h2 ⊢
  have hab : listIntLt va vb = true := by
    by_contra hh
    rw [Bool.not_eq_true] at hh
    rw [if_neg (by simp [hh])] at h1
    split at h1 <;> omega
  have hbc : listIntLt vb vc = true := by
    by_contra hh
    rw [Bool.not_eq_true] at hh
    rw [if_neg (by simp [hh])] at h2
    split at h2 <;> omega
  rw [if_pos (listIntLt_trans va vb vc hab hbc)]


theorem length_filter_mono {α : Type} (l : List α) (p q : α → Bool)
    (h : ∀ x ∈ l, p x = true → q x = true) :
    (l.filter p).length ≤ (l.filter q).length := by
  induction l with
  | nil => exact Nat.le_refl 0
  | cons x xs ih =>
    have ih' := ih (fun y hy => h y (List.mem_cons_of_mem x hy))
    by_cases hp : p x = true
    · rw [List.filter_cons, if_pos hp, List.filter_cons, if_pos (h x (List.mem_cons_self x xs) hp)]
      simpa using ih'
    · rw [List.filter_cons, if_neg hp]
      rw [List.filter_cons]
      split
      · exact Nat.le_trans ih' (by simp)
      · exact ih'

theorem length_filter_lt {α : Type} (l : List α) (p q : α → Bool) (x : α)
    (hx : x ∈ l) (hpx : p x = false) (hqx : q x = true)
    (h : ∀ y ∈ l, p y = true → q y = true) :
    (l.filter p).length < (l.filter q).length := by
  induction l with
  | nil => cases hx
  | cons a xs ih =>
    have hmono := length_filter_mono xs p q (fun y hy => h y (List.mem_cons_of_mem a hy))
    rcases List.mem_cons.mp hx with rfl | hx'
    · rw [List.filter_cons, if_neg (by simp [hpx]), List.filter_cons, if_pos hqx]
      simpa using Nat.lt_succ_of_le hmono
    · have ih' := ih hx' (fun y hy => h y (List.mem_cons_of_mem a hy))
      by_cases hpa : p a = true
      · rw [List.filter_cons, if_pos hpa, List.filter_cons,
          if_pos (h a (List.mem_cons_self a xs) hpa)]
        simpa using ih'
      · rw [List.filter_cons, if_neg hpa, List.filter_cons]
        split
        · exact Nat.lt_trans ih' (by simp)
        · exact ih'

theorem mem_insertByKey (x y : (String × String) × MigrationHandler)
    (l : MigrationRegistry) : x ∈ insertByKey y l ↔ x = y ∨ x ∈ l := by
  induction l with
  | nil => simp [insertByKey]
  | cons z zs ih =>
    unfold insertByKey
    split
    · simp only [List.mem_cons, ih]
      tauto
    · simp only [List.mem_cons]

theorem mem_sortByKey (x : (String × String) × MigrationHandler)
    (l : MigrationRegistry) : x ∈ sortByKey l ↔ x ∈ l := by
  induction l with
  | nil => simp [sortByKey]
  | cons z zs ih =>
    unfold sortByKey
    rw [mem_insertByKey, ih, List.mem_cons]

theorem eq_of_nodup_map {α β : Type} (l : List α) (f : α → β)
    (hnd : (l.map f).Nodup) (x y : α) (hx : x ∈ l) (hy : y ∈ l)
    (hf : f x = f y) : x = y := by
  induction l with
  | nil => cases hx
  | cons a xs ih =>
    rw [List.map_cons, List.nodup_cons] at hnd
    rcases List.mem_cons.mp hx with rfl | hx'
    · rcases List.mem_cons.mp hy with rfl | hy'
      · rfl
      · exact absurd (hf ▸ List.mem_map_of_mem f hy') hnd.1
    · rcases List.mem_cons.mp hy with rfl | hy'
      · exact absurd (hf ▸ List.mem_map_of_mem f hx') hnd.1
      · exact ih hnd.2 hx' hy'

theorem find?_sortByKey_eq (reg : MigrationRegistry)
    (hnd : (reg.map (fun e => e.1.1)).Nodup) (cur : String) :
    (sortByKey reg).find? (fun e => e.1.1 == cur)
      = reg.find? (fun e => e.1.1 == cur) := by
  cases h1 : reg.find? (fun e => e.1.1 == cur) with
  | none =>
    rw [List.find?_eq_none] at h1 ⊢
    intro x hx
    exact h1 x ((mem_sortByKey x reg).mp hx)
  | some a =>
    have ha1 : a ∈ reg := List.mem_of_find?_eq_some h1
    have ha2 := List.find?_some h1
    cases h2 : (sortByKey reg).find? (fun e => e.1.1 == cur) with
    | none =>
      rw [List.find?_eq_none] at h2
      exact absurd ha2 (by simpa using h2 a ((mem_sortByKey a reg).mpr ha1))
    | some b =>
      have hb1 : b ∈ reg := (mem_sortByKey b reg).mp (List.mem_of_find?_eq_some h2)
      have hb2 := List.find?_some h2
      simp only [beq_iff_eq] at ha2 hb2
      rw [eq_of_nodup_map reg (fun e => e.1.1) hnd b a hb1 ha1 (by simp only []; rw [ha2, hb2])]


/-- How a `migrate` outcome shows up through `can_migrate`'s eyes: success
means `True`, the structured no-path error means `False`, a propagated
exception stays an exception. -/
def migResultToCan : Except MigrateError Dict → Except PyErr Bool
  | .ok _ => .ok true
  | .error .noPath => .ok false
  | .error (.exc e) => .error e

theorem canLoop_eq_migLoop_map (reg : MigrationRegistry)
    (hnd : (reg.map (fun e => e.1.1)).Nodup) :
    ∀ (n : Nat) (cur : String) (data : Dict),
      canMigrateLoop n reg cur = (migrateLoop n reg cur data).map migResultToCan := by
  intro n
  induction n with
  | zero => intro cur data; rfl
  | succ n ih =>
    intro cur data
    unfold canMigrateLoop migrateLoop
    generalize hcv : compareVersions cur WOLS_VERSION = oc
    cases oc with
    | none => rfl
    | some c =>
      dsimp only
      by_cases hge : c ≥ 0
      · rw [if_pos hge, if_pos hge]
        rfl
      · rw [if_neg hge, if_neg hge]
        rw [find?_sortByKey_eq reg hnd cur]
        generalize hf : reg.find? (fun e => e.1.1 == cur) = of
        cases of with
        | none => rfl
        | some e => exact ih e.1.2 (e.2 data)

theorem canLoop_true_iff_migLoop_ok (reg : MigrationRegistry)
    (hnd : (reg.map (fun e => e.1.1)).Nodup) (cur : String) (data : Dict) :
    (∃ n, canMigrateLoop n reg cur = some (.ok true))
      ↔ (∃ d', ∃ n, migrateLoop n reg cur data = some (.ok d')) := by
  constructor
  · rintro ⟨n, hn⟩
    have hmap := canLoop_eq_migLoop_map reg hnd n cur data
    rw [hn] at hmap
    cases hm : migrateLoop n reg cur data with
    | none => rw [hm] at hmap; cases hmap
    | some r =>
      rw [hm] at hmap
      cases r with
      | ok d' => exact ⟨d', n, hm⟩
      | error e =>
        cases e with
        | noPath => simp [Option.map, migResultToCan] at hmap
        | exc e' => simp [Option.map, migResultToCan] at hmap
  · rintro ⟨d', n, hn⟩
    have hmap := canLoop_eq_migLoop_map reg hnd n cur data
    rw [hn] at hmap
    refine ⟨n, ?_⟩
    rw [hmap]
    rfl


/-- C4 counterexample registry: two edges out of 1.0.0, registered with
the upgrade edge first.  `can_migrate` scans insertion order and follows
(1.0.0 → 1.1.0); `migrate` scans sorted order and follows
(1.0.0 → 0.9.0), where it gets stuck. -/
def forkRegistry : MigrationRegistry :=
  registerMigration
    (registerMigration [] "1.0.0" "1.1.0" (fun d => d))
    "1.0.0" "0.9.0" (fun d => d)

/-- C4 counterexample: on the same record, `can_migrate` returns `True`
while `migrate` raises the no-migration-path error — the two walks pick
different edges when a source version has several outgoing edges. -/
theorem canMigrate_migrate_disagree :
    CanMigrateResult forkRegistry [("version", .vStr "1.0.0")] (.ok true)
    ∧ MigrateResult forkRegistry [("version", .vStr "1.0.0")] (.error .noPath) :=
  ⟨⟨10, rfl⟩, ⟨10, rfl⟩⟩

/-- C4 amended: when no two registered edges share a source version, the
two walks coincide, and `can_migrate` returns `True` iff `migrate`
returns normally; with duplicate source versions they may diverge
(`can_migrate` scans the registry in insertion order, `migrate` in
sorted order). -/
theorem canMigrate_iff_migrate_ok (reg : MigrationRegistry)
    (hnd : (reg.map (fun e => e.1.1)).Nodup) (specimen : Dict) :
    CanMigrateResult reg specimen (.ok true)
      ↔ ∃ d', MigrateResult reg specimen (.ok d') := by
  unfold CanMigrateResult MigrateResult canMigrateFuel migrateFuel
  generalize dictGet specimen "version" = ov
  cases ov with
  | none => exact canLoop_true_iff_migLoop_ok reg hnd "1.0.0" specimen
  | some v =>
    cases v with
    | vStr s => exact canLoop_true_iff_migLoop_ok reg hnd s specimen
    | vNull => constructor <;> (intro h; simp at h)
    | vBool b => constructor <;> (intro h; simp at h)
    | vInt n => constructor <;> (intro h; simp at h)
    | vList l => constructor <;> (intro h; simp at h)
    | vDict dd => constructor <;> (intro h; simp at h)

/-- C4 witness: the amended equivalence applied to the chain registry and
a 1.0.0 record (both directions inhabited). -/
theorem canMigrate_iff_migrate_ok_witness :
    ((chainRegistry.map (fun e => e.1.1)).Nodup)
    ∧ CanMigrateResult chainRegistry [("version", .vStr "1.0.0")] (.ok true) :=
  ⟨by decide, (canMigrate_iff_migrate_ok chainRegistry (by decide)
      [("version", .vStr "1.0.0")]).mpr
    ⟨[("version", .vStr "1.1.0")], 10, rfl⟩⟩


theorem migrateLoop_terminates (reg : MigrationRegistry)
    (hreg : ∀ e ∈ reg, versionLtB e.1.1 e.1.2 = true) :
    ∀ (k : Nat) (cur : String) (data : Dict),
      (reg.filter (fun e => versionLtB cur e.1.2)).length ≤ k →
      migrateLoop (k + 1) reg cur data ≠ none := by
  intro k
  induction k with
  | zero =>
    intro cur data hm
    unfold migrateLoop
    generalize hcv : compareVersions cur WOLS_VERSION = oc
    cases oc with
    | none => simp
    | some c =>
      dsimp only
      by_cases hge : c ≥ 0
      · rw [if_pos hge]; simp
      · rw [if_neg hge]
        cases hf : (sortByKey reg).find? (fun e => e.1.1 == cur) with
        | none => simp
        | some e =>
          exfalso
          have hmem : e ∈ reg := (mem_sortByKey e reg).mp (List.mem_of_find?_eq_some hf)
          have hpe := List.find?_some hf
          simp only [beq_iff_eq] at hpe
          have hlt : versionLtB cur e.1.2 = true := by
            have := hreg e hmem
            rw [hpe] at this
            exact this
          have hin : e ∈ reg.filter (fun x => versionLtB cur x.1.2) :=
            List.mem_filter.mpr ⟨hmem, hlt⟩
          have := List.length_pos.mpr (List.ne_nil_of_mem hin)
          omega
  | succ k ih =>
    intro cur data hm
    unfold migrateLoop
    generalize hcv : compareVersions cur WOLS_VERSION = oc
    cases oc with
    | none => simp
    | some c =>
      dsimp only
      by_cases hge : c ≥ 0
      · rw [if_pos hge]; simp
      · rw [if_neg hge]
        cases hf : (sortByKey reg).find? (fun e => e.1.1 == cur) with
        | none => simp
        | some e =>
          dsimp only
          have hmem : e ∈ reg := (mem_sortByKey e reg).mp (List.mem_of_find?_eq_some hf)
          have hpe := List.find?_some hf
          simp only [beq_iff_eq] at hpe
          have hlt : versionLtB cur e.1.2 = true := by
            have := hreg e hmem
            rw [hpe] at this
            exact this
          have hdec : (reg.filter (fun x => versionLtB e.1.2 x.1.2)).length
              < (reg.filter (fun x => versionLtB cur x.1.2)).length :=
            length_filter_lt reg _ _ e hmem (versionLtB_irrefl e.1.2) hlt
              (fun y _ hpy => versionLtB_trans cur e.1.2 y.1.2 hlt hpy)
          exact ih e.1.2 (e.2 data) (by omega)

theorem canMigrateLoop_terminates (reg : MigrationRegistry)
    (hreg : ∀ e ∈ reg, versionLtB e.1.1 e.1.2 = true) :
    ∀ (k : Nat) (cur : String),
      (reg.filter (fun e => versionLtB cur e.1.2)).length ≤ k →
      canMigrateLoop (k + 1) reg cur ≠ none := by
  intro k
  induction k with
  | zero =>
    intro cur hm
    unfold canMigrateLoop
    generalize hcv : compareVersions cur WOLS_VERSION = oc
    cases oc with
    | none => simp
    | some c =>
      dsimp only
      by_cases hge : c ≥ 0
      · rw [if_pos hge]; simp
      · rw [if_neg hge]
        cases hf : reg.find? (fun e => e.1.1 == cur) with
        | none => simp
        | some e =>
          exfalso
          have hmem : e ∈ reg := List.mem_of_find?_eq_some hf
          have hpe := List.find?_some hf
          simp only [beq_iff_eq] at hpe
          have hlt : versionLtB cur e.1.2 = true := by
            have := hreg e hmem
            rw [hpe] at this
            exact this
          have hin : e ∈ reg.filter (fun x => versionLtB cur x.1.2) :=
            List.mem_filter.mpr ⟨hmem, hlt⟩
          have := List.length_pos.mpr (List.ne_nil_of_mem hin)
          omega
  | succ k ih =>
    intro cur hm
    unfold canMigrateLoop
    generalize hcv : compareVersions cur WOLS_VERSION = oc
    cases oc with
    | none => simp
    | some c =>
      dsimp only
      by_cases hge : c ≥ 0
      · rw [if_pos hge]; simp
      · rw [if_neg hge]
        cases hf : reg.find? (fun e => e.1.1 == cur) with
        | none => simp
        | some e =>
          dsimp only
          have hmem : e ∈ reg := List.mem_of_find?_eq_some hf
          have hpe := List.find?_some hf
          simp only [beq_iff_eq] at hpe
          have hlt : versionLtB cur e.1.2 = true := by
            have := hreg e hmem
            rw [hpe] at this
            exact this
          have hdec : (reg.filter (fun x => versionLtB e.1.2 x.1.2)).length
              < (reg.filter (fun x => versionLtB cur x.1.2)).length :=
            length_filter_lt reg _ _ e hmem (versionLtB_irrefl e.1.2) hlt
              (fun y _ hpy => versionLtB_trans cur e.1.2 y.1.2 hlt hpy)
          exact ih e.1.2 (by omega)


/-- C8 counterexample registry: a single self-loop edge (1.0.0 → 1.0.0). -/
def selfLoopRegistry : MigrationRegistry :=
  registerMigration [] "1.0.0" "1.0.0" (fun d => d)

/-- C8 counterexample: with the self-loop registered, both walks run
forever on a 1.0.0 record — no amount of fuel finishes either loop, so
`migrate` and `can_migrate` do not terminate on every finite registry. -/
theorem migration_self_loop_diverges :
    (∀ n : Nat, migrateFuel n selfLoopRegistry [("version", .vStr "1.0.0")] = none)
      ∧ ∀ n : Nat, canMigrateFuel n selfLoopRegistry [("version", .vStr "1.0.0")] = none := by
  have key : ∀ n : Nat, migrateFuel n selfLoopRegistry [("version", .vStr "1.0.0")] = none
      ∧ canMigrateFuel n selfLoopRegistry [("version", .vStr "1.0.0")] = none := by
    intro n
    induction n with
    | zero => exact ⟨rfl, rfl⟩
    | succ n ih =>
      refine ⟨?_, ?_⟩
      · have hstep : migrateFuel (n + 1) selfLoopRegistry [("version", .vStr "1.0.0")]
            = migrateFuel n selfLoopRegistry [("version", .vStr "1.0.0")] := rfl
        rw [hstep]
        exact ih.1
      · have hstep : canMigrateFuel (n + 1) selfLoopRegistry [("version", .vStr "1.0.0")]
            = canMigrateFuel n selfLoopRegistry [("version", .vStr "1.0.0")] := rfl
        rw [hstep]
        exact ih.2
  exact ⟨fun n => (key n).1, fun n => (key n).2⟩

/-- C8 amended: whenever every registered edge's source version is
strictly below its target version in `compare_versions` order — true of
any sensible upgrade chain — both walks terminate on every record:
registry-length-plus-one fuel always suffices, because each hop strictly
shrinks the set of edges whose target lies above the pointer.  A
non-increasing edge (such as a self-loop) makes both walks run forever. -/
theorem migration_walks_terminate (reg : MigrationRegistry)
    (hreg : ∀ e ∈ reg, versionLtB e.1.1 e.1.2 = true) (specimen : Dict) :
    (∃ n, migrateFuel n reg specimen ≠ none)
    ∧ (∃ n, canMigrateFuel n reg specimen ≠ none) := by
  unfold migrateFuel canMigrateFuel
  generalize dictGet specimen "version" = ov
  cases ov with
  | none =>
    refine ⟨⟨(reg.filter (fun e => versionLtB "1.0.0" e.1.2)).length + 1, ?_⟩,
      ⟨(reg.filter (fun e => versionLtB "1.0.0" e.1.2)).length + 1, ?_⟩⟩
    · exact migrateLoop_terminates reg hreg _ "1.0.0" specimen (Nat.le_refl _)
    · exact canMigrateLoop_terminates reg hreg _ "1.0.0" (Nat.le_refl _)
  | some v =>
    cases v with
    | vStr s =>
      refine ⟨⟨(reg.filter (fun e => versionLtB s e.1.2)).length + 1, ?_⟩,
        ⟨(reg.filter (fun e => versionLtB s e.1.2)).length + 1, ?_⟩⟩
      · exact migrateLoop_terminates reg hreg _ s specimen (Nat.le_refl _)
      · exact canMigrateLoop_terminates reg hreg _ s (Nat.le_refl _)
    | vNull => exact ⟨⟨1, by simp⟩, ⟨1, by simp⟩⟩
    | vBool b => exact ⟨⟨1, by simp⟩, ⟨1, by simp⟩⟩
    | vInt n => exact ⟨⟨1, by simp⟩, ⟨1, by simp⟩⟩
    | vList l => exact ⟨⟨1, by simp⟩, ⟨1, by simp⟩⟩
    | vDict dd => exact ⟨⟨1, by simp⟩, ⟨1, by simp⟩⟩

/-- C8 witness: the termination statement applied to the strictly
increasing chain registry and a 1.0.0 record. -/
theorem migration_walks_terminate_witness :
    (∀ e ∈ chainRegistry, versionLtB e.1.1 e.1.2 = true)
    ∧ ((∃ n, migrateFuel n chainRegistry [("version", .vStr "1.0.0")] ≠ none)
      ∧ (∃ n, canMigrateFuel n chainRegistry [("version", .vStr "1.0.0")] ≠ none)) :=
  ⟨by decide,
   migration_walks_terminate chainRegistry (by decide) [("version", .vStr "1.0.0")]⟩

end Wols
